import Mathlib

/-!
Verification of the Fathom billing/entitlement ledger
(`apps/backend/fathom/crud/supabase/billing.py`,
`apps/backend/fathom/application/billing.py`,
`apps/backend/fathom/application/usage.py`).

The Python code talks to a row store (Supabase/PostgREST) that offers only
single-row conditional updates.  We embed it shallowly:

* rows become Lean structures (Python ints are arbitrary precision, so `Int`;
  timestamps become `Int`; statuses stay the `String`s the store holds);
* the database becomes an explicit `Store` value threaded through the
  sequential embeddings;
* a compare-and-swap (CAS) retry loop is embedded twice: once sequentially
  (the conditional update matches the row just read) and once against an
  adversarial interference schedule, where each failed CAS consumes one
  entry of the schedule (the row state seen by the re-read);
* Python exceptions become `Except`/result values (`PyErr`).
-/

namespace Fathom

/-! ## Data model -/

/-- One credit lot row (`credit_lots` table, `LOT_SELECT_FIELDS`).
`id` keys the row; `created_at` is not modelled because the embedding keeps
rows in the `(pack_expires_at asc nulls last, created_at asc)` order the
queries request, so list order stands in for it. -/
structure CreditLot where
  id : Nat
  user_id : String
  lot_type : String
  source_key : String
  granted_seconds : Int
  consumed_seconds : Int
  revoked_seconds : Int
  pack_expires_at : Option Int
  status : String
deriving Repr, DecidableEq

/-- `remaining_seconds_from_lot` (crud/supabase/billing.py lines 452-456). -/
def remaining_seconds_from_lot (lot : CreditLot) : Int :=
  max (lot.granted_seconds - lot.consumed_seconds - lot.revoked_seconds) 0

/-- The `if expiry and expiry <= now` pattern: a missing expiry is falsy. -/
def lotExpired (lot : CreditLot) (now : Int) : Bool :=
  match lot.pack_expires_at with
  | none => false
  | some e => decide (e ≤ now)

/-! ## Single-lot CAS loops

`consume_credit_lot_by_id` (lines 545-600) and `revoke_remaining_credit_lot`
(lines 603-642) are read / conditional-update / retry loops.  The loop body
is embedded as a function of the lot state the `fetch` observed.  The
interference schedule `σ : List (Option CreditLot)` drives the CAS attempts:
an attempt succeeds iff `σ = []` (no concurrent writer got in between, so the
row still equals the value read) and the row's status satisfies the literal
`status = 'active'` predicate of `_compare_and_update_credit_lot`
(lines 411-437); a failed attempt consumes the head of `σ` as the state the
following re-read observes.  The result is the returned integer together with
the row value this call successfully wrote, if any. -/

/-- The `for _ in range(max_retries)` loop of `consume_credit_lot_by_id`
(lines 557-600): fuel counts the remaining iterations. -/
def consume_lot_loop (seconds now : Int) :
    Nat → Option CreditLot → List (Option CreditLot) → Int × Option CreditLot
  | 0, _, _ => (0, none)
  | _ + 1, none, _ => (0, none)
  | n + 1, some lot, σ =>
    if lot.status ≠ "active" then (0, none)
    else if lotExpired lot now then
      -- CAS `{status: expired}`; the function returns 0 whether or not it lands.
      match σ with
      | [] => (0, some { lot with status := "expired" })
      | _ :: _ => (0, none)
    else
      let remaining := remaining_seconds_from_lot lot
      if remaining ≤ 0 then (0, none)
      else
        let consume := min remaining seconds
        match σ with
        | [] => (consume, some { lot with consumed_seconds := lot.consumed_seconds + consume })
        | s :: rest => consume_lot_loop seconds now n s rest

/-- `consume_credit_lot_by_id` (lines 545-600): guard on the requested
seconds, initial fetch result, then the bounded retry loop
(`max_retries = 5`). -/
def consume_credit_lot_by_id (fetched : Option CreditLot) (seconds now : Int)
    (σ : List (Option CreditLot)) (max_retries : Nat) : Int × Option CreditLot :=
  if seconds ≤ 0 then (0, none)
  else consume_lot_loop seconds now max_retries fetched σ

/-- The `for _ in range(5)` loop of `revoke_remaining_credit_lot`
(lines 605-642).  The remaining>0 CAS carries `expected_status="active"`, so
even an uninterfered attempt fails when the row's status is not `active`; the
code then re-reads (seeing the same row) and retries. -/
def revoke_lot_loop :
    Nat → Option CreditLot → List (Option CreditLot) → Int × Option CreditLot
  | 0, _, _ => (0, none)
  | _ + 1, none, _ => (0, none)
  | n + 1, some lot, σ =>
    let remaining := remaining_seconds_from_lot lot
    if remaining ≤ 0 then
      if lot.status = "active" then
        match σ with
        | [] => (0, some { lot with status := "revoked" })
        | _ :: _ => (0, none)
      else (0, none)
    else
      match σ with
      | [] =>
        if lot.status = "active" then
          (remaining,
           some { lot with revoked_seconds := lot.revoked_seconds + remaining,
                           status := "revoked" })
        else revoke_lot_loop n (some lot) []
      | s :: rest => revoke_lot_loop n s rest

/-- `revoke_remaining_credit_lot` (lines 603-642): initial fetch, then the
retry loop with 5 attempts. -/
def revoke_remaining_credit_lot (fetched : Option CreditLot)
    (σ : List (Option CreditLot)) : Int × Option CreditLot :=
  revoke_lot_loop 5 fetched σ

/-! ## C1: successful-CAS step relation on one lot

A successful conditional update applies only when the row still equals the
values the caller read, so the write a successful step performs is exactly
the loop body evaluated at the *current* row (fuel 1, empty schedule). -/

/-- One successful consume/revoke CAS step on a lot, as issued by
`consume_credit_lot_by_id` (including its lazy-expiry write) or
`revoke_remaining_credit_lot`. -/
def LotStep (l l' : CreditLot) : Prop :=
  (∃ seconds now : Int, 0 < seconds ∧
      (consume_credit_lot_by_id (some l) seconds now [] 1).2 = some l') ∨
  (revoke_lot_loop 1 (some l) []).2 = some l'

/-- Lot states reachable from `init` by interleaving successful
consume/revoke CAS steps. -/
def LotReachable (init l : CreditLot) : Prop :=
  Relation.ReflTransGen LotStep init l

/-- The ledger invariant on a single lot. -/
def LotInv (l : CreditLot) : Prop :=
  0 ≤ l.consumed_seconds ∧ 0 ≤ l.revoked_seconds ∧
    l.consumed_seconds + l.revoked_seconds ≤ l.granted_seconds

/-! ## Entitlements and the debt CAS loop -/

/-- One entitlement snapshot row (`entitlements` table,
`ENTITLEMENT_SELECT_FIELDS`). -/
structure Entitlement where
  user_id : String
  subscription_plan_id : Option String
  subscription_status : Option String
  period_start : Option Int
  period_end : Option Int
  subscription_cycle_grant_seconds : Int
  subscription_rollover_seconds : Int
  subscription_available_seconds : Int
  pack_available_seconds : Int
  pack_expires_at : Option Int
  debt_seconds : Int
  is_blocked : Bool
  last_balance_sync_at : Option Int
deriving Repr, DecidableEq

/-- The Python error taxonomy relevant here: `InvalidRequestError`,
`ExternalServiceError`, `NotFoundError`, and the interpreter-level
`TypeError` a mismatched keyword argument raises. -/
inductive PyErr
  | invalidRequest (msg : String)
  | externalService (msg : String)
  | notFound (msg : String)
  | typeError (msg : String)
deriving Repr, DecidableEq

/-- What one iteration of `adjust_entitlement_debt` (lines 797-828) observes:
the first `fetch_entitlement` result, the re-fetch after the bootstrap upsert
(consulted only when the first fetch found nothing), and whether the
conditional update (`eq("debt_seconds", current_debt)`) matched. -/
structure AdjustObs where
  fetched : Option Entitlement
  refetched : Option Entitlement
  cas_ok : Bool

/-- The entitlement an iteration of `adjust_entitlement_debt` works on:
the fetched row, or the row re-fetched after upserting `{user_id}`. -/
def adjustObsEnt (o : AdjustObs) : Option Entitlement :=
  match o.fetched with
  | some e => some e
  | none => o.refetched

/-- The `for _ in range(max_retries)` loop of `adjust_entitlement_debt`
(lines 797-830), one `AdjustObs` per iteration.  On a successful conditional
update the result is `(returned new_debt, written debt_seconds, written
is_blocked)`; exhausting the loop raises `ExternalServiceError`.  The
written `last_balance_sync_at` timestamp is not tracked. -/
def adjust_debt_loop (delta cap : Int) : List AdjustObs → Except PyErr (Int × Int × Bool)
  | [] => .error (.externalService "Failed to adjust entitlement debt due to concurrent updates.")
  | o :: rest =>
    match adjustObsEnt o with
    | none => adjust_debt_loop delta cap rest
    | some ent =>
      let current_debt := ent.debt_seconds
      let new_debt := max (current_debt + delta) 0
      if o.cas_ok then .ok (new_debt, new_debt, decide (cap ≤ new_debt))
      else adjust_debt_loop delta cap rest

/-- `adjust_entitlement_debt` (lines 785-830): the `delta == 0` early return
reads the current debt without writing; otherwise the CAS loop runs
`max_retries = 5` iterations.  The `Option (Int × Bool)` component is the
`(debt_seconds, is_blocked)` payload of the successful write, `none` when no
write was performed. -/
def adjust_entitlement_debt (delta cap : Int) (fetched0 : Option Entitlement)
    (obs : Nat → AdjustObs) : Except PyErr (Int × Option (Int × Bool)) :=
  if delta = 0 then
    .ok ((match fetched0 with | some e => e.debt_seconds | none => 0), none)
  else
    match adjust_debt_loop delta cap ((List.range 5).map obs) with
    | .error e => .error e
    | .ok (r, wd, wb) => .ok (r, some (wd, wb))

/-! ## The row store, sequentially

For the single-threaded flows (usage recording, refund requests, webhook
bookkeeping) the database is threaded explicitly.  With no concurrent
writer, every conditional update matches the row that was just read, so the
CAS loops run with the empty interference schedule.  Ordered range queries
return rows in list order: the embedding keeps `credit_lots` in the
`(pack_expires_at asc nulls last, created_at asc)` order the queries request,
with inserts appended. -/

/-- A `plans` row (`PLAN_SELECT_FIELDS`), restricted to the fields the
embedded flows read. -/
structure Plan where
  id : String
  polar_product_id : Option String
  plan_type : String
  quota_seconds : Int
  rollover_cap_seconds : Int
  pack_expiry_days : Int
  is_active : Bool
deriving Repr, DecidableEq

/-- A `billing_orders` row (`ORDER_SELECT_FIELDS`), restricted to the fields
the refund flow reads. -/
structure BillingOrder where
  id : Nat
  polar_order_id : String
  user_id : String
  plan_type : String
  paid_amount_cents : Int
  refunded_amount_cents : Int
  status : String
deriving Repr, DecidableEq

/-- A `usage_ledger` row (`insert_usage_entry`, lines 855-873). -/
structure UsageEntry where
  user_id : String
  job_id : Option String
  seconds_used : Int
  source : String
deriving Repr, DecidableEq

/-- A `billing_webhook_events` row.  `claimed_at` models the row's
last-transition-to-processing timestamp, the recency datum the staleness
cutoff is compared against. -/
structure WebhookEvent where
  event_id : String
  provider : String
  event_type : String
  payload : String
  status : String
  claimed_at : Option Int
  processed_at : Option Int
  error : Option String
deriving Repr, DecidableEq

/-- The relevant tables of the backing store. -/
structure Store where
  plans : List Plan
  credit_lots : List CreditLot
  entitlements : List Entitlement
  billing_orders : List BillingOrder
  usage_ledger : List UsageEntry
  webhook_events : List WebhookEvent
  next_lot_id : Nat
deriving Repr, DecidableEq

/-- `fetch_credit_lot_by_id` (lines 387-396). -/
def fetch_credit_lot_by_id (store : Store) (lot_id : Nat) : Option CreditLot :=
  store.credit_lots.find? (fun l => l.id == lot_id)

/-- `update_credit_lot(..., values={"status": st})` (lines 399-408). -/
def update_credit_lot_status (store : Store) (lot_id : Nat) (st : String) : Store :=
  { store with credit_lots :=
      store.credit_lots.map (fun l => if l.id == lot_id then { l with status := st } else l) }

/-- Apply the row a successful CAS wrote back to the store. -/
def applyLotWrite (store : Store) (lot_id : Nat) : Option CreditLot → Store
  | none => store
  | some row =>
    { store with credit_lots :=
        store.credit_lots.map (fun l => if l.id == lot_id then row else l) }

/-- `consume_credit_lot_by_id` run against the sequential store (no
interference, so the schedule is empty and `max_retries = 5`). -/
def consume_credit_lot_by_id_seq (store : Store) (lot_id : Nat) (seconds now : Int) :
    Store × Int :=
  let r := consume_credit_lot_by_id (fetch_credit_lot_by_id store lot_id) seconds now [] 5
  (applyLotWrite store lot_id r.2, r.1)

/-- The per-row loop of `list_credit_lots_for_consumption` (lines 484-503):
lazily expire, drop empty lots, keep the rest in order. -/
def list_credit_lots_go (now : Int) : List CreditLot → Store → Store × List CreditLot
  | [], store => (store, [])
  | row :: rest, store =>
    if lotExpired row now then
      list_credit_lots_go now rest (update_credit_lot_status store row.id "expired")
    else if remaining_seconds_from_lot row ≤ 0 then
      list_credit_lots_go now rest store
    else
      let r := list_credit_lots_go now rest store
      (r.1, row :: r.2)

/-- `list_credit_lots_for_consumption` (lines 459-503).  The
`if lot_type == "pack_order" and exclude_pack_source_keys:` guard is falsy
for both a missing and an empty exclusion set. -/
def list_credit_lots_for_consumption (store : Store) (user_id lot_type : String)
    (now : Int) (exclude_pack_source_keys : Option (List String)) :
    Store × List CreditLot :=
  let rows := store.credit_lots.filter
    (fun l => l.user_id == user_id && l.lot_type == lot_type && l.status == "active")
  let rows :=
    match exclude_pack_source_keys with
    | some keys =>
      if lot_type == "pack_order" && !keys.isEmpty then
        rows.filter (fun r => !(keys.contains r.source_key))
      else rows
    | none => rows
  list_credit_lots_go now rows store

/-- The `for lot in lots` loop of `consume_credit_lots` (lines 528-542),
returning the final store and `consumed_total`. -/
def consume_lots_go (now : Int) : List CreditLot → Store → Int → Store × Int
  | [], store, _ => (store, 0)
  | lot :: rest, store, remaining =>
    if remaining ≤ 0 then (store, 0)
    else
      let r := consume_credit_lot_by_id_seq store lot.id remaining now
      if r.2 ≤ 0 then consume_lots_go now rest r.1 remaining
      else
        let r' := consume_lots_go now rest r.1 (remaining - r.2)
        (r'.1, r.2 + r'.2)

/-- `consume_credit_lots` (lines 506-542). -/
def consume_credit_lots (store : Store) (user_id lot_type : String)
    (seconds_to_consume now : Int) (exclude_pack_source_keys : Option (List String)) :
    Store × Int :=
  if seconds_to_consume ≤ 0 then (store, 0)
  else
    let r := list_credit_lots_for_consumption store user_id lot_type now exclude_pack_source_keys
    consume_lots_go now r.2 r.1 seconds_to_consume

/-- `record_webhook_event_received` (lines 106-133): insert-if-absent on the
`event_id` unique constraint; a duplicate insert raises Postgres error 23505,
which the function catches and converts into `False`. -/
def record_webhook_event_received (store : Store)
    (event_id provider event_type payload : String) : Store × Bool :=
  if store.webhook_events.any (fun ev => ev.event_id == event_id) then
    (store, false)
  else
    ({ store with webhook_events := store.webhook_events ++
        [{ event_id := event_id, provider := provider, event_type := event_type,
           payload := payload, status := "received", claimed_at := none,
           processed_at := none, error := none }] },
     true)

/-! ## C3: the webhook claim / stale-reclaim path -/

/-- `WEBHOOK_PROCESSING_STALE_SECONDS` (application/billing.py line 49). -/
def WEBHOOK_PROCESSING_STALE_SECONDS : Int := 300

/-- The row predicate of `claim_webhook_event_for_processing`:
`eq("event_id", event_id)` and `in_("status", ["received", "failed"])`. -/
def webhook_claimable (event_id : String) (ev : WebhookEvent) : Bool :=
  ev.event_id == event_id && (ev.status == "received" || ev.status == "failed")

/-- `claim_webhook_event_for_processing` (lines 136-161): conditional update
restricted to rows in status `received` or `failed`, moving them to
`processing` (clearing `processed_at` and `error`); returns whether a row
was affected.  `claimed_at` records the transition time the staleness check
compares against. -/
def claim_webhook_event_for_processing (store : Store) (event_id : String) (now : Int) :
    Store × Bool :=
  ({ store with webhook_events := store.webhook_events.map (fun ev =>
      if webhook_claimable event_id ev then
        { ev with status := "processing", claimed_at := some now,
                  processed_at := none, error := none }
      else ev) },
   store.webhook_events.any (webhook_claimable event_id))

/-- The reclaim predicate: a `processing` row for this event whose claim is
older than the cutoff. -/
def webhook_claim_stale (event_id : String) (stale_before : Int) (ev : WebhookEvent) : Bool :=
  ev.event_id == event_id && ev.status == "processing" &&
    (match ev.claimed_at with
     | some t => decide (t < stale_before)
     | none => false)

/-- Modelled from the spec: `reclaim_stale_processing_webhook_event` is
imported by application/billing.py (line 26) and called by
`handle_polar_webhook` (line 379), but its definition is not part of the
repository snapshot under src/.  Per spec §4.4 a reclaim is a conditional
transition allowed only when the event is currently `processing` with a
claim older than the staleness cutoff; it releases the stale claim so that
the caller's immediately following `claim` (which is restricted to
`received`/`failed` rows) can move the event back to `processing` under a
fresh claim — the spec's net `processing → processing` transition. -/
def reclaim_stale_processing_webhook_event (store : Store) (event_id : String)
    (stale_before : Int) : Store × Bool :=
  ({ store with webhook_events := store.webhook_events.map (fun ev =>
      if webhook_claim_stale event_id stale_before ev then { ev with status := "failed" }
      else ev) },
   store.webhook_events.any (webhook_claim_stale event_id stale_before))

/-- The claim portion of `handle_polar_webhook` (lines 376-388): claim; on
failure reclaim-if-stale with cutoff `now - 300`; if reclaimed, retry the
claim exactly once.  The `Nat` counts the claim attempts made. -/
def handle_polar_webhook_claim_phase (store : Store) (event_id : String) (now : Int) :
    Store × Bool × Nat :=
  let r₁ := claim_webhook_event_for_processing store event_id now
  if r₁.2 then (r₁.1, true, 1)
  else
    let r₂ := reclaim_stale_processing_webhook_event r₁.1 event_id
                (now - WEBHOOK_PROCESSING_STALE_SECONDS)
    if r₂.2 then
      let r₃ := claim_webhook_event_for_processing r₂.1 event_id now
      (r₃.1, r₃.2, 2)
    else (r₂.1, false, 1)

/-! ## Billing orders, entitlement snapshot sync, and the refund flow -/

/-- `fetch_entitlement` (lines 711-726). -/
def fetch_entitlement (store : Store) (user_id : String) : Option Entitlement :=
  store.entitlements.find? (fun e => e.user_id == user_id)

/-- `fetch_billing_order_for_user` (lines 254-275). -/
def fetch_billing_order_for_user (store : Store) (user_id polar_order_id : String) :
    Option BillingOrder :=
  store.billing_orders.find?
    (fun o => o.user_id == user_id && o.polar_order_id == polar_order_id)

/-- `fetch_credit_lot_by_source` (lines 363-384). -/
def fetch_credit_lot_by_source (store : Store) (lot_type source_key : String) :
    Option CreditLot :=
  store.credit_lots.find? (fun l => l.lot_type == lot_type && l.source_key == source_key)

/-- `fetch_polar_order_ids_refund_pending` (lines 278-291). -/
def fetch_polar_order_ids_refund_pending (store : Store) (user_id : String) : List String :=
  (store.billing_orders.filter
    (fun o => o.user_id == user_id && o.status == "refund_pending")).map
      (fun o => o.polar_order_id)

/-- `transition_billing_order_status` (lines 306-328): conditional update
`id = order_id AND status = from_status SET status = to_status`, reporting
whether a row was affected. -/
def transition_billing_order_status (store : Store) (order_id : Nat)
    (from_status to_status : String) : Store × Bool :=
  ({ store with billing_orders := store.billing_orders.map (fun o =>
      if o.id == order_id && o.status == from_status then { o with status := to_status }
      else o) },
   store.billing_orders.any (fun o => o.id == order_id && o.status == from_status))

/-- A fresh `entitlements` row as the store's column defaults create it. -/
def default_entitlement (user_id : String) : Entitlement :=
  { user_id := user_id, subscription_plan_id := none, subscription_status := none,
    period_start := none, period_end := none, subscription_cycle_grant_seconds := 0,
    subscription_rollover_seconds := 0, subscription_available_seconds := 0,
    pack_available_seconds := 0, pack_expires_at := none, debt_seconds := 0,
    is_blocked := false, last_balance_sync_at := none }

/-- PostgREST upsert on `entitlements` keyed by `user_id`: update the
supplied columns of the existing row, or insert a fresh row with defaults
and the supplied columns. -/
def upsert_entitlement_with (store : Store) (user_id : String)
    (f : Entitlement → Entitlement) : Store :=
  if store.entitlements.any (fun e => e.user_id == user_id) then
    { store with entitlements := store.entitlements.map (fun e =>
        if e.user_id == user_id then f e else e) }
  else
    { store with entitlements := store.entitlements ++ [f (default_entitlement user_id)] }

/-- `update_entitlement_snapshot` (lines 758-782). -/
def update_entitlement_snapshot (store : Store) (user_id : String)
    (subscription_available_seconds pack_available_seconds : Int)
    (pack_expires_at : Option Int) (debt_seconds : Int) (is_blocked : Bool)
    (last_balance_sync_at : Int) : Store :=
  upsert_entitlement_with store user_id (fun e =>
    { e with subscription_available_seconds := subscription_available_seconds,
             pack_available_seconds := pack_available_seconds,
             pack_expires_at := pack_expires_at,
             debt_seconds := debt_seconds,
             is_blocked := is_blocked,
             last_balance_sync_at := some last_balance_sync_at })

/-- The `if expiry and (next_pack_expiry is None or expiry < next_pack_expiry)`
update of the nearest pack expiry (lines 705-706). -/
def nearest_pack_expiry (expiry nextExp : Option Int) : Option Int :=
  match expiry, nextExp with
  | some e, none => some e
  | some e, some x => if e < x then some e else some x
  | none, x => x

/-- The per-row loop of `summarize_credit_lots` (lines 684-706). -/
def summarize_go (now : Int) :
    List CreditLot → Store → Int → Int → Option Int → Store × Int × Int × Option Int
  | [], store, sub, pack, nextExp => (store, sub, pack, nextExp)
  | row :: rest, store, sub, pack, nextExp =>
    if lotExpired row now then
      summarize_go now rest (update_credit_lot_status store row.id "expired") sub pack nextExp
    else if remaining_seconds_from_lot row ≤ 0 then
      summarize_go now rest store sub pack nextExp
    else if row.lot_type == "subscription_cycle" then
      summarize_go now rest store (sub + remaining_seconds_from_lot row) pack nextExp
    else if row.lot_type == "pack_order" then
      summarize_go now rest store sub (pack + remaining_seconds_from_lot row)
        (nearest_pack_expiry row.pack_expires_at nextExp)
    else
      summarize_go now rest store sub pack nextExp

/-- `summarize_credit_lots` (lines 659-708), exactly as defined in the
repository: its keyword parameters are `user_id` and `now` only — it has no
exclusion parameter. -/
def summarize_credit_lots (store : Store) (user_id : String) (now : Int) :
    Store × Int × Int × Option Int :=
  let rows := store.credit_lots.filter
    (fun l => l.user_id == user_id && l.status == "active" &&
      (l.lot_type == "subscription_cycle" || l.lot_type == "pack_order"))
  summarize_go now rows store 0 0 none

/-- Keyword parameters declared by `summarize_credit_lots`
(crud/supabase/billing.py lines 659-664). -/
def summarize_credit_lots_keyword_params : List String := ["user_id", "now"]

/-- Keyword arguments the application layer's `_sync_entitlement_snapshot`
passes to `summarize_credit_lots` (application/billing.py lines 134-139). -/
def billing_sync_summarize_call_kwargs : List String :=
  ["user_id", "now", "exclude_pack_source_keys"]

/-- Python call semantics: a call is accepted only if every keyword argument
names a declared parameter; otherwise the interpreter raises
`TypeError: ... got an unexpected keyword argument ...`. -/
def python_kwargs_accepted (params passed : List String) : Bool :=
  passed.all (fun k => params.contains k)

/-- `_sync_entitlement_snapshot` of application/billing.py (lines 119-151).
It reads the entitlement, resolves the effective debt, collects the user's
refund-pending order ids as the exclusion set, and then calls
`summarize_credit_lots(admin_client, user_id=..., now=...,
exclude_pack_source_keys=...)`.  That keyword is not declared by
`summarize_credit_lots`, so under Python call semantics the call raises
`TypeError` and no snapshot is written; the accepted branch is provably
unreachable. -/
def billing_sync_entitlement_snapshot (store : Store) (user_id : String)
    (debt_cap_seconds now : Int) (debt_seconds : Option Int) : Except PyErr Store :=
  let ent := fetch_entitlement store user_id
  let effective_debt₀ := match ent with | some e => e.debt_seconds | none => 0
  let _effective_debt := match debt_seconds with | some d => max d 0 | none => effective_debt₀
  let _exclude_pack_keys := fetch_polar_order_ids_refund_pending store user_id
  if h : python_kwargs_accepted summarize_credit_lots_keyword_params
           billing_sync_summarize_call_kwargs = true then
    absurd h (by decide)
  else
    .error (.typeError
      "summarize_credit_lots() got an unexpected keyword argument: exclude_pack_source_keys")

/-- Provider refund-call outcome (`polar.create_order_refund`):
succeeded with an optional refund id, rejected with an HTTP status and
detail (`PolarInvalidRequestError`), or an unknown network/provider
failure. -/
inductive PolarOutcome
  | ok (refund_id : Option String)
  | invalidRequest (http_status : Int) (detail : String)
  | failure (msg : String)
deriving Repr, DecidableEq

/-- `_is_definitive_duplicate_refund_error` (application/billing.py lines
105-116): lowercased substring probes over the provider error detail. -/
def _is_definitive_duplicate_refund_error (detail : String) : Bool :=
  let normalized := detail.toLower
  ["already refunded", "already been refunded", "already has a refund",
   "refund already", "duplicate refund", "refund exists", "already exists"].any
    (fun marker => decide (List.IsInfix marker.data normalized.data))

/-- `PackRefundResponse` (schemas/billing.py). -/
structure PackRefundResponse where
  polar_order_id : String
  refund_id : Option String
  requested_amount_cents : Int
  remaining_seconds_before_refund : Int
  status : String
deriving Repr, DecidableEq

/-- Lines 277-288 of `request_pack_refund`: the refundability guards and the
proportional refund amount `paid_amount_cents * remaining_seconds //
granted_seconds` (Python `//` is floor division, hence `Int.fdiv`). -/
def pack_refund_requested_amount (order : BillingOrder) (lot : CreditLot) :
    Except PyErr Int :=
  let granted_seconds := lot.granted_seconds
  let remaining_seconds := remaining_seconds_from_lot lot
  let paid_amount_cents := order.paid_amount_cents
  if granted_seconds ≤ 0 ∨ paid_amount_cents ≤ 0 then
    .error (.invalidRequest "Order is not refundable.")
  else if remaining_seconds ≤ 0 then
    .error (.invalidRequest "No refundable amount remaining for this pack order.")
  else
    let refundable_amount_cents := Int.fdiv (paid_amount_cents * remaining_seconds) granted_seconds
    if refundable_amount_cents ≤ 0 then
      .error (.invalidRequest "No refundable amount remaining for this pack order.")
    else .ok refundable_amount_cents

/-- `request_pack_refund` (application/billing.py lines 245-361), threaded
through the sequential store.  The provider call outcome is a parameter;
errors carry the store as mutated so far (a raised Python exception does not
roll back prior row writes). -/
def request_pack_refund (store : Store) (polar_order_id user_id : String)
    (debt_cap_seconds now : Int) (polar : PolarOutcome) :
    Store × Except PyErr PackRefundResponse :=
  match fetch_billing_order_for_user store user_id polar_order_id with
  | none => (store, .error (.invalidRequest "Pack order not found."))
  | some order =>
    if order.plan_type ≠ "pack" then
      (store, .error (.invalidRequest "Only pack orders can be refunded from this endpoint."))
    else
      let status := if order.status = "" then "paid" else order.status
      if status = "refund_pending" then
        (store, .error (.invalidRequest "Refund is already in progress for this order."))
      else if status = "refunded" then
        (store, .error (.invalidRequest "This order has already been refunded."))
      else
        match fetch_credit_lot_by_source store "pack_order" polar_order_id with
        | none => (store, .error (.invalidRequest "Pack lot not found for this order."))
        | some lot =>
          match pack_refund_requested_amount order lot with
          | .error e => (store, .error e)
          | .ok refundable_amount_cents =>
            let t := transition_billing_order_status store order.id "paid" "refund_pending"
            if t.2 then
              match billing_sync_entitlement_snapshot t.1 user_id debt_cap_seconds now none with
              | .error e => (t.1, .error e)
              | .ok store₂ =>
                match polar with
                | .invalidRequest http_status detail =>
                  if http_status = 409 || _is_definitive_duplicate_refund_error detail then
                    (store₂, .error (.invalidRequest
                      "Refund request already exists or may have already been processed. Please wait for webhook confirmation."))
                  else
                    let t₂ := transition_billing_order_status store₂ order.id
                                "refund_pending" "paid"
                    match billing_sync_entitlement_snapshot t₂.1 user_id debt_cap_seconds now none with
                    | .error e => (t₂.1, .error e)
                    | .ok store₃ => (store₃, .error (.invalidRequest detail))
                | .failure msg => (store₂, .error (.externalService msg))
                | .ok refund_id =>
                  (store₂, .ok { polar_order_id := polar_order_id, refund_id := refund_id,
                                 requested_amount_cents := refundable_amount_cents,
                                 remaining_seconds_before_refund := remaining_seconds_from_lot lot,
                                 status := "pending_webhook_confirmation" })
            else
              let refreshed := fetch_billing_order_for_user t.1 user_id polar_order_id
              let refreshed_status : Option String :=
                match refreshed with
                | some o => if o.status = "" then none else some o.status
                | none => none
              if refreshed_status = some "refunded" then
                (t.1, .error (.invalidRequest "This order has already been refunded."))
              else if refreshed_status = some "refund_pending" then
                (t.1, .error (.invalidRequest "Refund is already in progress for this order."))
              else
                (t.1, .error (.invalidRequest "Order is not refundable at this time."))

/-! ## C2: the refund-pending snapshot sync crashes -/

/-- The pack lot of the C2 scenario: granted 3600, consumed 1200, active. -/
def refund_demo_lot : CreditLot :=
  { id := 1, user_id := "u1", lot_type := "pack_order", source_key := "ord1",
    granted_seconds := 3600, consumed_seconds := 1200, revoked_seconds := 0,
    pack_expires_at := some 99999, status := "active" }

/-- The paid pack order of the C2 scenario (3000 cents, nothing refunded). -/
def refund_demo_order : BillingOrder :=
  { id := 1, polar_order_id := "ord1", user_id := "u1", plan_type := "pack",
    paid_amount_cents := 3000, refunded_amount_cents := 0, status := "paid" }

/-- The user's synced snapshot before the refund request: the pack lot's
2400 remaining seconds are counted as available. -/
def refund_demo_entitlement : Entitlement :=
  { default_entitlement "u1" with pack_available_seconds := 2400,
                                  pack_expires_at := some 99999,
                                  last_balance_sync_at := some 0 }

/-- The C2 store: one paid pack order, its active lot, the synced snapshot. -/
def refund_demo_store : Store :=
  { plans := [], credit_lots := [refund_demo_lot],
    entitlements := [refund_demo_entitlement], billing_orders := [refund_demo_order],
    usage_ledger := [], webhook_events := [], next_lot_id := 2 }

/-! ## Usage recording (application/usage.py) -/

/-- `fetch_plan_by_product_id` (crud lines 48-60); raises `NotFoundError`
through `first_row` when no plan matches. -/
def fetch_plan_by_product_id (store : Store) (product_id : String) : Except PyErr Plan :=
  match store.plans.find? (fun p => p.polar_product_id == some product_id) with
  | some p => .ok p
  | none => .error (.notFound "Plan not found for Polar product id.")

/-- `upsert_credit_lot` (crud lines 331-360): upsert keyed on
`(lot_type, source_key)`; on conflict the supplied columns are updated and
`consumed_seconds`/`revoked_seconds` keep their stored values; on insert they
default to 0.  The `plan_id` column is not modelled. -/
def upsert_credit_lot (store : Store) (user_id lot_type source_key : String)
    (granted_seconds : Int) (pack_expires_at : Option Int) (status : String) :
    Store × CreditLot :=
  match store.credit_lots.find?
      (fun l => l.lot_type == lot_type && l.source_key == source_key) with
  | some existing =>
    let updated := { existing with user_id := user_id,
                                   granted_seconds := granted_seconds,
                                   pack_expires_at := pack_expires_at, status := status }
    ({ store with credit_lots := store.credit_lots.map (fun l =>
        if l.lot_type == lot_type && l.source_key == source_key then updated else l) },
     updated)
  | none =>
    let row : CreditLot :=
      { id := store.next_lot_id, user_id := user_id, lot_type := lot_type,
        source_key := source_key, granted_seconds := granted_seconds,
        consumed_seconds := 0, revoked_seconds := 0,
        pack_expires_at := pack_expires_at, status := status }
    ({ store with credit_lots := store.credit_lots ++ [row],
                  next_lot_id := store.next_lot_id + 1 }, row)

/-- `upsert_subscription_entitlement_state` (crud lines 729-755). -/
def upsert_subscription_entitlement_state (store : Store) (user_id : String)
    (subscription_plan_id : Option String) (subscription_status : String)
    (period_start period_end : Option Int)
    (subscription_cycle_grant_seconds subscription_rollover_seconds
      subscription_available_seconds : Int) : Store :=
  upsert_entitlement_with store user_id (fun e =>
    { e with subscription_plan_id := subscription_plan_id,
             subscription_status := some subscription_status,
             period_start := period_start, period_end := period_end,
             subscription_cycle_grant_seconds := subscription_cycle_grant_seconds,
             subscription_rollover_seconds := subscription_rollover_seconds,
             subscription_available_seconds := subscription_available_seconds })

/-- `insert_usage_entry` (crud lines 855-873). -/
def insert_usage_entry (store : Store) (user_id : String) (job_id : Option String)
    (seconds_used : Int) (source : String) : Store :=
  { store with usage_ledger := store.usage_ledger ++
      [{ user_id := user_id, job_id := job_id, seconds_used := seconds_used,
         source := source }] }

/-- `UsageSnapshot` (usage.py lines 40-47). -/
structure UsageSnapshot where
  subscription_remaining : Int
  pack_remaining : Int
  total_remaining : Int
  pack_expires_at : Option Int
  debt_seconds : Int
  is_blocked : Bool
deriving Repr, DecidableEq

/-- `_sync_entitlement_snapshot` of application/usage.py (lines 61-94) —
distinct from the homonymous function in application/billing.py: this one
calls `summarize_credit_lots` with only its declared keywords, derives the
blocked flag from the given debt and the cap, and upserts the snapshot. -/
def usage_sync_entitlement_snapshot (store : Store) (user_id : String)
    (debt_cap_seconds debt_seconds now : Int) : Store × UsageSnapshot :=
  let r := summarize_credit_lots store user_id now
  let blocked := decide (debt_cap_seconds ≤ debt_seconds)
  (update_entitlement_snapshot r.1 user_id r.2.1 r.2.2.1 r.2.2.2 debt_seconds blocked now,
   { subscription_remaining := r.2.1, pack_remaining := r.2.2.1,
     total_remaining := r.2.1 + r.2.2.1, pack_expires_at := r.2.2.2,
     debt_seconds := debt_seconds, is_blocked := blocked })

/-- The free-cycle source key, `f"internal_free:{period_start.date()}"`
with the date serialization abstracted to the timestamp value. -/
def free_source_key (period_start : Int) : String :=
  "internal_free:" ++ toString period_start

/-- `_ensure_free_entitlement` (usage.py lines 97-137): grant the free plan
cycle lot, record the subscription state, sync, and re-read. -/
def _ensure_free_entitlement (store : Store) (user_id : String)
    (debt_cap_seconds now : Int) : Except PyErr (Store × Entitlement) :=
  match fetch_plan_by_product_id store "internal_free" with
  | .error e => .error e
  | .ok free_plan =>
    let period_start := now
    let period_end := now + 30 * 86400
    let r₁ := upsert_credit_lot store user_id "subscription_cycle"
                (free_source_key period_start) free_plan.quota_seconds
                (some period_end) "active"
    let store₂ := upsert_subscription_entitlement_state r₁.1 user_id
                    (some free_plan.id) "active" (some period_start) (some period_end)
                    free_plan.quota_seconds 0 free_plan.quota_seconds
    let r₃ := usage_sync_entitlement_snapshot store₂ user_id debt_cap_seconds 0 now
    match fetch_entitlement r₃.1 user_id with
    | some ent => .ok (r₃.1, ent)
    | none => .error (.externalService "Failed to initialize free tier entitlements.")

/-- `record_usage_for_job` (usage.py lines 200-264).  `job_id` is truthiness
tested before being put in the ledger payload. -/
def record_usage_for_job (store : Store) (user_id job_id : String)
    (duration_seconds : Option Int) (debt_cap_seconds now : Int) : Except PyErr Store :=
  match duration_seconds with
  | none => .ok store
  | some d =>
    if d ≤ 0 then .ok store
    else
      match (match fetch_entitlement store user_id with
             | some ent => .ok (store, ent)
             | none => _ensure_free_entitlement store user_id debt_cap_seconds now :
               Except PyErr (Store × Entitlement)) with
      | .error e => .error e
      | .ok (store₀, entitlement) =>
        let remaining := d
        let r₁ := consume_credit_lots store₀ user_id "subscription_cycle" remaining now none
        let consumed_subscription := r₁.2
        let store₂ :=
          if 0 < consumed_subscription then
            insert_usage_entry r₁.1 user_id (if job_id = "" then none else some job_id)
              consumed_subscription "subscription"
          else r₁.1
        let remaining₁ :=
          if 0 < consumed_subscription then remaining - consumed_subscription else remaining
        let r₂ :=
          if 0 < remaining₁ then
            consume_credit_lots store₂ user_id "pack_order" remaining₁ now none
          else (store₂, 0)
        let consumed_pack := r₂.2
        let store₃ :=
          if 0 < consumed_pack then
            insert_usage_entry r₂.1 user_id (if job_id = "" then none else some job_id)
              consumed_pack "pack"
          else r₂.1
        let remaining₂ := if 0 < consumed_pack then remaining₁ - consumed_pack else remaining₁
        let current_debt := entitlement.debt_seconds
        let unmet_seconds := max remaining₂ 0
        let new_debt := current_debt + unmet_seconds
        .ok (usage_sync_entitlement_snapshot store₃ user_id debt_cap_seconds new_debt now).1

/-- The C8 witness store: one user with a synced, zero-debt entitlement. -/
def usage_demo_store : Store :=
  { plans := [], credit_lots := [], entitlements := [default_entitlement "u1"],
    billing_orders := [], usage_ledger := [], webhook_events := [], next_lot_id := 0 }

theorem lotStep_preserves_inv {l l' : CreditLot} (h : LotStep l l') (hinv : LotInv l) :
    LotInv l' ∧ l'.granted_seconds = l.granted_seconds := by
  obtain ⟨hc, hr, hcr⟩ := hinv
  rcases h with ⟨seconds, now, hs, h⟩ | h
  · unfold consume_credit_lot_by_id consume_lot_loop at h
    rw [if_neg (by omega)] at h
    by_cases hst : l.status = "active"
    · simp only [hst, ne_eq, not_true_eq_false, if_false] at h
      by_cases hex : lotExpired l now = true
      · simp only [hex, if_true] at h
        cases h
        exact ⟨⟨hc, hr, hcr⟩, rfl⟩
      · simp only [hex, if_false, Bool.false_eq_true] at h
        by_cases hrem : remaining_seconds_from_lot l ≤ 0
        · simp [hrem] at h
        · simp only [hrem, if_false] at h
          cases h
          refine ⟨⟨?_, hr, ?_⟩, rfl⟩ <;>
            simp only [remaining_seconds_from_lot] at hrem ⊢ <;> omega
    · simp [hst] at h
  · unfold revoke_lot_loop at h
    by_cases hrem : remaining_seconds_from_lot l ≤ 0
    · simp only [hrem, if_true] at h
      by_cases hst : l.status = "active"
      · simp only [hst, if_true] at h
        cases h
        exact ⟨⟨hc, hr, hcr⟩, rfl⟩
      · simp [hst] at h
    · simp only [hrem, if_false] at h
      by_cases hst : l.status = "active"
      · simp only [hst, if_true] at h
        cases h
        refine ⟨⟨hc, ?_, ?_⟩, rfl⟩ <;>
          simp only [remaining_seconds_from_lot] at hrem ⊢ <;> omega
      · simp only [hst, if_false] at h
        unfold revoke_lot_loop at h
        cases h

/-- **C1.** For every credit lot and every interleaving of concurrent
consume/revoke operations modelled as successful compare-and-swap steps (a
step applies only when the lot's current `consumed_seconds`,
`revoked_seconds` and `status` equal the values the caller read), the
invariant `consumed_seconds + revoked_seconds ≤ granted_seconds`
(equivalently `remaining = max(granted - consumed - revoked, 0) ≥ 0`) holds
in every reachable lot state, in particular in the final state. -/
theorem credit_lot_cas_invariant (init l : CreditLot)
    (hfresh : init.consumed_seconds = 0 ∧ init.revoked_seconds = 0)
    (hg : 0 ≤ init.granted_seconds)
    (h : LotReachable init l) :
    l.consumed_seconds + l.revoked_seconds ≤ l.granted_seconds ∧
      0 ≤ remaining_seconds_from_lot l := by
  have hinv : LotInv l := by
    induction h with
    | refl => exact ⟨le_of_eq hfresh.1.symm, le_of_eq hfresh.2.symm, by omega⟩
    | tail _ hstep ih => exact (lotStep_preserves_inv hstep ih).1
  exact ⟨hinv.2.2, le_max_right _ _⟩

/-- Witness for C1 at a concrete fresh lot (granted 3600 seconds), whose
initial state is reachable by the empty interleaving. -/
theorem credit_lot_cas_invariant_witness :
    ({ id := 1, user_id := "u1", lot_type := "pack_order", source_key := "ord1",
       granted_seconds := 3600, consumed_seconds := 0, revoked_seconds := 0,
       pack_expires_at := none, status := "active" } : CreditLot).consumed_seconds
        + ({ id := 1, user_id := "u1", lot_type := "pack_order", source_key := "ord1",
             granted_seconds := 3600, consumed_seconds := 0, revoked_seconds := 0,
             pack_expires_at := none, status := "active" } : CreditLot).revoked_seconds
        ≤ ({ id := 1, user_id := "u1", lot_type := "pack_order", source_key := "ord1",
             granted_seconds := 3600, consumed_seconds := 0, revoked_seconds := 0,
             pack_expires_at := none, status := "active" } : CreditLot).granted_seconds
      ∧ 0 ≤ remaining_seconds_from_lot
          { id := 1, user_id := "u1", lot_type := "pack_order", source_key := "ord1",
            granted_seconds := 3600, consumed_seconds := 0, revoked_seconds := 0,
            pack_expires_at := none, status := "active" } :=
  credit_lot_cas_invariant _ _ ⟨rfl, rfl⟩ (by decide) Relation.ReflTransGen.refl

/-! ## C5: functional behaviour of `consume_credit_lot_by_id` -/

theorem consume_lot_loop_result_bounds (seconds now : Int) (hs : 0 < seconds) :
    ∀ (fuel : Nat) (fetched : Option CreditLot) (σ : List (Option CreditLot)),
      0 ≤ (consume_lot_loop seconds now fuel fetched σ).1 ∧
        (consume_lot_loop seconds now fuel fetched σ).1 ≤ seconds := by
  intro fuel
  induction fuel with
  | zero => intro fetched σ; exact ⟨le_refl 0, le_of_lt hs⟩
  | succ n ih =>
    intro fetched σ
    match fetched with
    | none => exact ⟨le_refl 0, le_of_lt hs⟩
    | some lot =>
      unfold consume_lot_loop
      by_cases hst : lot.status = "active"
      · simp only [hst, ne_eq, not_true_eq_false, if_false]
        by_cases hex : lotExpired lot now = true
        · simp only [hex, if_true]
          match σ with
          | [] => exact ⟨le_refl 0, le_of_lt hs⟩
          | _ :: _ => exact ⟨le_refl 0, le_of_lt hs⟩
        · simp only [hex, Bool.false_eq_true, if_false]
          by_cases hrem : remaining_seconds_from_lot lot ≤ 0
          · simp only [hrem, if_true]
            exact ⟨le_refl 0, le_of_lt hs⟩
          · simp only [hrem, if_false]
            match σ with
            | [] =>
              constructor
              · simp only [remaining_seconds_from_lot] at hrem ⊢
                omega
              · exact min_le_right _ _
            | s :: rest => exact ih s rest
      · simp only [hst, ne_eq, not_false_eq_true, if_true]
        exact ⟨le_refl 0, le_of_lt hs⟩

/-- If every CAS attempt is interfered with (the schedule covers the whole
fuel), the consume loop exhausts its retries and returns 0 with no write. -/
theorem consume_lot_loop_exhausted (seconds now : Int) :
    ∀ (fuel : Nat) (fetched : Option CreditLot) (σ : List (Option CreditLot)),
      fuel ≤ σ.length →
        consume_lot_loop seconds now fuel fetched σ = (0, none) := by
  intro fuel
  induction fuel with
  | zero => intro fetched σ _; rfl
  | succ n ih =>
    intro fetched σ hlen
    match fetched with
    | none => rfl
    | some lot =>
      match σ with
      | [] => simp at hlen
      | s :: rest =>
        unfold consume_lot_loop
        by_cases hst : lot.status = "active"
        · simp only [hst, ne_eq, not_true_eq_false, if_false]
          by_cases hex : lotExpired lot now = true
          · simp [hex]
          · simp only [hex, Bool.false_eq_true, if_false]
            by_cases hrem : remaining_seconds_from_lot lot ≤ 0
            · simp [hrem]
            · simp only [hrem, if_false]
              exact ih s rest (by simpa using hlen)
        · simp [hst]

/-- Same exhaustion behaviour for the revoke loop. -/
theorem revoke_lot_loop_exhausted :
    ∀ (fuel : Nat) (fetched : Option CreditLot) (σ : List (Option CreditLot)),
      fuel ≤ σ.length → revoke_lot_loop fuel fetched σ = (0, none) := by
  intro fuel
  induction fuel with
  | zero => intro fetched σ _; rfl
  | succ n ih =>
    intro fetched σ hlen
    match fetched with
    | none => rfl
    | some lot =>
      match σ with
      | [] => simp at hlen
      | s :: rest =>
        unfold revoke_lot_loop
        by_cases hrem : remaining_seconds_from_lot lot ≤ 0
        · simp only [hrem, if_true]
          by_cases hst : lot.status = "active" <;> simp [hst]
        · simp only [hrem, if_false]
          exact ih s rest (by simpa using hlen)

/-- **C5.** For every lot id, requested `seconds > 0`, and time `now`:
`consume_credit_lot_by_id` returns 0 if the lot does not exist, its status is
not `active`, its expiry is ≤ now (in which case the lot is transitioned to
`expired`), or its remaining is ≤ 0; otherwise, when its conditional update
succeeds against the state it read (no interference, `σ = []`), it returns
`take = min(remaining, seconds)` and increases `consumed_seconds` by exactly
`take`; on a failed conditional update it re-reads the lot and retries with
one fewer attempt of the bounded attempt count. -/
theorem consume_credit_lot_by_id_spec (seconds now : Int) (lot : CreditLot)
    (σ : List (Option CreditLot)) (hs : 0 < seconds) :
    consume_credit_lot_by_id none seconds now σ 5 = (0, none)
    ∧ (lot.status ≠ "active" →
        consume_credit_lot_by_id (some lot) seconds now σ 5 = (0, none))
    ∧ (lot.status = "active" → lotExpired lot now = true →
        (consume_credit_lot_by_id (some lot) seconds now σ 5).1 = 0
        ∧ (σ = [] → (consume_credit_lot_by_id (some lot) seconds now σ 5).2
              = some { lot with status := "expired" }))
    ∧ (lot.status = "active" → lotExpired lot now = false →
        remaining_seconds_from_lot lot ≤ 0 →
        consume_credit_lot_by_id (some lot) seconds now σ 5 = (0, none))
    ∧ (lot.status = "active" → lotExpired lot now = false →
        0 < remaining_seconds_from_lot lot →
        consume_credit_lot_by_id (some lot) seconds now [] 5
          = (min (remaining_seconds_from_lot lot) seconds,
             some { lot with consumed_seconds :=
                      lot.consumed_seconds + min (remaining_seconds_from_lot lot) seconds }))
    ∧ (∀ s rest, σ = s :: rest → lot.status = "active" →
        lotExpired lot now = false → 0 < remaining_seconds_from_lot lot →
        consume_credit_lot_by_id (some lot) seconds now σ 5
          = consume_lot_loop seconds now 4 s rest) := by
  have hguard : ¬ seconds ≤ 0 := by omega
  refine ⟨?_, ?_, ?_, ?_, ?_, ?_⟩
  · simp [consume_credit_lot_by_id, hguard, consume_lot_loop]
  · intro hst
    simp [consume_credit_lot_by_id, hguard, consume_lot_loop, hst]
  · intro hst hex
    constructor
    · simp only [consume_credit_lot_by_id, hguard, if_false]
      unfold consume_lot_loop
      simp only [hst, ne_eq, not_true_eq_false, if_false, hex, if_true]
      match σ with
      | [] => rfl
      | _ :: _ => rfl
    · intro hσ
      subst hσ
      simp [consume_credit_lot_by_id, hguard, consume_lot_loop, hst, hex]
  · intro hst hex hrem
    simp [consume_credit_lot_by_id, hguard, consume_lot_loop, hst, hex, hrem]
  · intro hst hex hrem
    simp [consume_credit_lot_by_id, hguard, consume_lot_loop, hst, hex, not_le.mpr hrem]
  · intro s rest hσ hst hex hrem
    subst hσ
    simp [consume_credit_lot_by_id, hguard, consume_lot_loop, hst, hex, not_le.mpr hrem]

/-- Witness for C5 at a concrete active lot with 3600 granted seconds, a
request of 600 seconds, and no interference. -/
theorem consume_credit_lot_by_id_spec_witness :
    consume_credit_lot_by_id none 600 50 [] 5 = (0, none)
    ∧ (({ id := 7, user_id := "u1", lot_type := "subscription_cycle",
          source_key := "sub:1", granted_seconds := 3600, consumed_seconds := 100,
          revoked_seconds := 0, pack_expires_at := some 1000,
          status := "active" } : CreditLot).status ≠ "active" →
        consume_credit_lot_by_id
          (some { id := 7, user_id := "u1", lot_type := "subscription_cycle",
                  source_key := "sub:1", granted_seconds := 3600, consumed_seconds := 100,
                  revoked_seconds := 0, pack_expires_at := some 1000,
                  status := "active" }) 600 50 [] 5 = (0, none))
    ∧ (({ id := 7, user_id := "u1", lot_type := "subscription_cycle",
          source_key := "sub:1", granted_seconds := 3600, consumed_seconds := 100,
          revoked_seconds := 0, pack_expires_at := some 1000,
          status := "active" } : CreditLot).status = "active" →
        lotExpired { id := 7, user_id := "u1", lot_type := "subscription_cycle",
                     source_key := "sub:1", granted_seconds := 3600, consumed_seconds := 100,
                     revoked_seconds := 0, pack_expires_at := some 1000,
                     status := "active" } 50 = true →
        (consume_credit_lot_by_id
            (some { id := 7, user_id := "u1", lot_type := "subscription_cycle",
                    source_key := "sub:1", granted_seconds := 3600, consumed_seconds := 100,
                    revoked_seconds := 0, pack_expires_at := some 1000,
                    status := "active" }) 600 50 [] 5).1 = 0
        ∧ (([] : List (Option CreditLot)) = [] →
            (consume_credit_lot_by_id
                (some { id := 7, user_id := "u1", lot_type := "subscription_cycle",
                        source_key := "sub:1", granted_seconds := 3600, consumed_seconds := 100,
                        revoked_seconds := 0, pack_expires_at := some 1000,
                        status := "active" }) 600 50 [] 5).2
              = some { id := 7, user_id := "u1", lot_type := "subscription_cycle",
                       source_key := "sub:1", granted_seconds := 3600, consumed_seconds := 100,
                       revoked_seconds := 0, pack_expires_at := some 1000,
                       status := "expired" }))
    ∧ (({ id := 7, user_id := "u1", lot_type := "subscription_cycle",
          source_key := "sub:1", granted_seconds := 3600, consumed_seconds := 100,
          revoked_seconds := 0, pack_expires_at := some 1000,
          status := "active" } : CreditLot).status = "active" →
        lotExpired { id := 7, user_id := "u1", lot_type := "subscription_cycle",
                     source_key := "sub:1", granted_seconds := 3600, consumed_seconds := 100,
                     revoked_seconds := 0, pack_expires_at := some 1000,
                     status := "active" } 50 = false →
        remaining_seconds_from_lot
            { id := 7, user_id := "u1", lot_type := "subscription_cycle",
              source_key := "sub:1", granted_seconds := 3600, consumed_seconds := 100,
              revoked_seconds := 0, pack_expires_at := some 1000,
              status := "active" } ≤ 0 →
        consume_credit_lot_by_id
          (some { id := 7, user_id := "u1", lot_type := "subscription_cycle",
                  source_key := "sub:1", granted_seconds := 3600, consumed_seconds := 100,
                  revoked_seconds := 0, pack_expires_at := some 1000,
                  status := "active" }) 600 50 [] 5 = (0, none))
    ∧ (({ id := 7, user_id := "u1", lot_type := "subscription_cycle",
          source_key := "sub:1", granted_seconds := 3600, consumed_seconds := 100,
          revoked_seconds := 0, pack_expires_at := some 1000,
          status := "active" } : CreditLot).status = "active" →
        lotExpired { id := 7, user_id := "u1", lot_type := "subscription_cycle",
                     source_key := "sub:1", granted_seconds := 3600, consumed_seconds := 100,
                     revoked_seconds := 0, pack_expires_at := some 1000,
                     status := "active" } 50 = false →
        0 < remaining_seconds_from_lot
              { id := 7, user_id := "u1", lot_type := "subscription_cycle",
                source_key := "sub:1", granted_seconds := 3600, consumed_seconds := 100,
                revoked_seconds := 0, pack_expires_at := some 1000,
                status := "active" } →
        consume_credit_lot_by_id
          (some { id := 7, user_id := "u1", lot_type := "subscription_cycle",
                  source_key := "sub:1", granted_seconds := 3600, consumed_seconds := 100,
                  revoked_seconds := 0, pack_expires_at := some 1000,
                  status := "active" }) 600 50 [] 5
          = (min (remaining_seconds_from_lot
                    { id := 7, user_id := "u1", lot_type := "subscription_cycle",
                      source_key := "sub:1", granted_seconds := 3600, consumed_seconds := 100,
                      revoked_seconds := 0, pack_expires_at := some 1000,
                      status := "active" }) 600,
             some { id := 7, user_id := "u1", lot_type := "subscription_cycle",
                    source_key := "sub:1",
                    granted_seconds := 3600,
                    consumed_seconds :=
                      (100 : Int) + min (remaining_seconds_from_lot
                        { id := 7, user_id := "u1", lot_type := "subscription_cycle",
                          source_key := "sub:1", granted_seconds := 3600, consumed_seconds := 100,
                          revoked_seconds := 0, pack_expires_at := some 1000,
                          status := "active" }) 600,
                    revoked_seconds := 0, pack_expires_at := some 1000,
                    status := "active" }))
    ∧ (∀ s rest, ([] : List (Option CreditLot)) = s :: rest →
        ({ id := 7, user_id := "u1", lot_type := "subscription_cycle",
           source_key := "sub:1", granted_seconds := 3600, consumed_seconds := 100,
           revoked_seconds := 0, pack_expires_at := some 1000,
           status := "active" } : CreditLot).status = "active" →
        lotExpired { id := 7, user_id := "u1", lot_type := "subscription_cycle",
                     source_key := "sub:1", granted_seconds := 3600, consumed_seconds := 100,
                     revoked_seconds := 0, pack_expires_at := some 1000,
                     status := "active" } 50 = false →
        0 < remaining_seconds_from_lot
              { id := 7, user_id := "u1", lot_type := "subscription_cycle",
                source_key := "sub:1", granted_seconds := 3600, consumed_seconds := 100,
                revoked_seconds := 0, pack_expires_at := some 1000,
                status := "active" } →
        consume_credit_lot_by_id
          (some { id := 7, user_id := "u1", lot_type := "subscription_cycle",
                  source_key := "sub:1", granted_seconds := 3600, consumed_seconds := 100,
                  revoked_seconds := 0, pack_expires_at := some 1000,
                  status := "active" }) 600 50 [] 5
          = consume_lot_loop 600 50 4 s rest) :=
  consume_credit_lot_by_id_spec 600 50
    { id := 7, user_id := "u1", lot_type := "subscription_cycle",
      source_key := "sub:1", granted_seconds := 3600, consumed_seconds := 100,
      revoked_seconds := 0, pack_expires_at := some 1000, status := "active" }
    [] (by decide)

/-! ## C4: what actually happens when a CAS retry loop exhausts its attempts

`consume_credit_lot_by_id` and `revoke_remaining_credit_lot` fall off the end
of their `for _ in range(...)` loop with `return 0` — no exception — while
only `adjust_entitlement_debt` raises `ExternalServiceError` (line 830). -/

/-- Counterexample to C4 as stated: with an active, non-empty lot and an
interference schedule defeating all five CAS attempts,
`consume_credit_lot_by_id` returns the plain value 0 with no write — the
same result as "nothing to consume" — rather than surfacing any error (its
retry-exhaustion path is `return 0`, billing.py line 600). -/
theorem consume_exhaustion_returns_zero_counterexample :
    consume_credit_lot_by_id
      (some { id := 3, user_id := "u1", lot_type := "pack_order", source_key := "ord1",
              granted_seconds := 100, consumed_seconds := 0, revoked_seconds := 0,
              pack_expires_at := none, status := "active" }) 10 0
      [some { id := 3, user_id := "u1", lot_type := "pack_order", source_key := "ord1",
              granted_seconds := 100, consumed_seconds := 1, revoked_seconds := 0,
              pack_expires_at := none, status := "active" },
       some { id := 3, user_id := "u1", lot_type := "pack_order", source_key := "ord1",
              granted_seconds := 100, consumed_seconds := 2, revoked_seconds := 0,
              pack_expires_at := none, status := "active" },
       some { id := 3, user_id := "u1", lot_type := "pack_order", source_key := "ord1",
              granted_seconds := 100, consumed_seconds := 3, revoked_seconds := 0,
              pack_expires_at := none, status := "active" },
       some { id := 3, user_id := "u1", lot_type := "pack_order", source_key := "ord1",
              granted_seconds := 100, consumed_seconds := 4, revoked_seconds := 0,
              pack_expires_at := none, status := "active" },
       some { id := 3, user_id := "u1", lot_type := "pack_order", source_key := "ord1",
              granted_seconds := 100, consumed_seconds := 5, revoked_seconds := 0,
              pack_expires_at := none, status := "active" }] 5 = (0, none) := by
  decide

theorem adjust_debt_loop_ok (delta cap : Int) :
    ∀ (l : List AdjustObs) (r wd : Int) (wb : Bool),
      adjust_debt_loop delta cap l = .ok (r, wd, wb) →
      wd = r ∧ wb = decide (cap ≤ r) ∧
        ∃ o ∈ l, ∃ e, adjustObsEnt o = some e ∧ r = max (e.debt_seconds + delta) 0 := by
  intro l
  induction l with
  | nil => intro r wd wb h; simp [adjust_debt_loop] at h
  | cons o rest ih =>
    intro r wd wb h
    unfold adjust_debt_loop at h
    match hoe : adjustObsEnt o with
    | none =>
      rw [hoe] at h
      obtain ⟨h1, h2, o', ho', e, he, hr⟩ := ih r wd wb h
      exact ⟨h1, h2, o', List.mem_cons_of_mem _ ho', e, he, hr⟩
    | some ent =>
      rw [hoe] at h
      by_cases hcas : o.cas_ok = true
      · simp only [hcas, if_true, Except.ok.injEq, Prod.mk.injEq] at h
        obtain ⟨hr, hwd, hwb⟩ := h
        subst hr
        exact ⟨hwd.symm, hwb.symm, o, List.mem_cons_self o rest, ent, hoe, rfl⟩
      · simp only [Bool.not_eq_true] at hcas
        simp only [hcas, Bool.false_eq_true, if_false] at h
        obtain ⟨h1, h2, o', ho', e, he, hr⟩ := ih r wd wb h
        exact ⟨h1, h2, o', List.mem_cons_of_mem _ ho', e, he, hr⟩

/-- If every iteration's conditional update fails to match, the debt CAS
loop exhausts its attempts and raises `ExternalServiceError`. -/
theorem adjust_debt_loop_exhausted (delta cap : Int) :
    ∀ l : List AdjustObs, (∀ o ∈ l, o.cas_ok = false) →
      adjust_debt_loop delta cap l
        = .error (.externalService "Failed to adjust entitlement debt due to concurrent updates.") := by
  intro l
  induction l with
  | nil => intro _; rfl
  | cons o rest ih =>
    intro h
    unfold adjust_debt_loop
    match hoe : adjustObsEnt o with
    | none => exact ih fun o' ho' => h o' (List.mem_cons_of_mem _ ho')
    | some ent =>
      simp only [h o (List.mem_cons_self o rest), Bool.false_eq_true, if_false]
      exact ih fun o' ho' => h o' (List.mem_cons_of_mem _ ho')

/-- **C7.** For every user, delta, and cap: a successful
`adjust_entitlement_debt` that performed its conditional update wrote
`new_debt = max(current_debt + delta, 0)` (for the `current_debt` it had just
read) and `is_blocked = (new_debt ≥ cap)`, and returned `new_debt`; hence the
written `is_blocked` is true exactly when the stored `debt_seconds` is ≥ cap,
and is false again exactly when the stored debt is below the cap. -/
theorem adjust_entitlement_debt_spec (delta cap : Int) (fetched0 : Option Entitlement)
    (obs : Nat → AdjustObs) (r wd : Int) (wb : Bool)
    (h : adjust_entitlement_debt delta cap fetched0 obs = .ok (r, some (wd, wb))) :
    wd = r ∧ (wb = true ↔ cap ≤ wd) ∧ (wb = false ↔ wd < cap) ∧
      ∃ o ∈ (List.range 5).map obs, ∃ e, adjustObsEnt o = some e ∧
        r = max (e.debt_seconds + delta) 0 := by
  by_cases hδ : delta = 0
  · simp [adjust_entitlement_debt, hδ] at h
  · simp only [adjust_entitlement_debt, hδ, if_false] at h
    match hloop : adjust_debt_loop delta cap ((List.range 5).map obs) with
    | .error e => rw [hloop] at h; cases h
    | .ok (r', wd', wb') =>
      rw [hloop] at h
      simp only [Except.ok.injEq, Prod.mk.injEq, Option.some.injEq] at h
      obtain ⟨hr, hwd, hwb⟩ := h
      subst hr hwd hwb
      obtain ⟨h1, h2, hwit⟩ := adjust_debt_loop_ok delta cap _ r' wd' wb' hloop
      subst h1
      constructor
      · rfl
      · subst h2
        refine ⟨⟨fun h => of_decide_eq_true h, fun h => decide_eq_true h⟩, ?_, hwit⟩
        constructor
        · intro h
          have := of_decide_eq_false h
          omega
        · intro h
          apply decide_eq_false
          omega

/-- Witness for C7: debt 40, delta 100, cap 120 — the successful CAS writes
debt 140 and blocks the account. -/
theorem adjust_entitlement_debt_spec_witness :
    (140 : Int) = 140 ∧ (true = true ↔ (120 : Int) ≤ 140) ∧ (true = false ↔ (140 : Int) < 120) ∧
      ∃ o ∈ (List.range 5).map (fun _ => AdjustObs.mk
        (some { user_id := "u1", subscription_plan_id := none, subscription_status := none,
                period_start := none, period_end := none,
                subscription_cycle_grant_seconds := 0, subscription_rollover_seconds := 0,
                subscription_available_seconds := 0, pack_available_seconds := 0,
                pack_expires_at := none, debt_seconds := 40, is_blocked := false,
                last_balance_sync_at := none }) none true),
        ∃ e, adjustObsEnt o = some e ∧ (140 : Int) = max (e.debt_seconds + 100) 0 :=
  adjust_entitlement_debt_spec 100 120
    (some { user_id := "u1", subscription_plan_id := none, subscription_status := none,
            period_start := none, period_end := none,
            subscription_cycle_grant_seconds := 0, subscription_rollover_seconds := 0,
            subscription_available_seconds := 0, pack_available_seconds := 0,
            pack_expires_at := none, debt_seconds := 40, is_blocked := false,
            last_balance_sync_at := none })
    (fun _ => AdjustObs.mk
      (some { user_id := "u1", subscription_plan_id := none, subscription_status := none,
              period_start := none, period_end := none,
              subscription_cycle_grant_seconds := 0, subscription_rollover_seconds := 0,
              subscription_available_seconds := 0, pack_available_seconds := 0,
              pack_expires_at := none, debt_seconds := 40, is_blocked := false,
              last_balance_sync_at := none }) none true)
    140 140 true (by rfl)

/-- **C4 (amended).** When a CAS retry loop exhausts all its attempts without
a successful conditional update, only `adjust_entitlement_debt` surfaces an
error (`ExternalServiceError`, with no write applied by that call — the
error case carries no write payload); `consume_credit_lot_by_id` and
`revoke_remaining_credit_lot` instead return the plain value 0 with no write,
indistinguishable from an empty lot, rather than raising. -/
theorem cas_exhaustion_behaviour (seconds now : Int)
    (fetched fetched₂ : Option CreditLot) (σ σ₂ : List (Option CreditLot))
    (delta cap : Int) (fetched0 : Option Entitlement) (obs : Nat → AdjustObs) :
    (5 ≤ σ.length → consume_credit_lot_by_id fetched seconds now σ 5 = (0, none))
    ∧ (5 ≤ σ₂.length → revoke_remaining_credit_lot fetched₂ σ₂ = (0, none))
    ∧ (delta ≠ 0 → (∀ i, (obs i).cas_ok = false) →
        adjust_entitlement_debt delta cap fetched0 obs
          = .error (.externalService
              "Failed to adjust entitlement debt due to concurrent updates.")) := by
  refine ⟨?_, ?_, ?_⟩
  · intro hlen
    unfold consume_credit_lot_by_id
    by_cases hguard : seconds ≤ 0
    · simp [hguard]
    · simp only [hguard, if_false]
      exact consume_lot_loop_exhausted seconds now 5 fetched σ hlen
  · intro hlen
    exact revoke_lot_loop_exhausted 5 fetched₂ σ₂ hlen
  · intro hδ hobs
    simp only [adjust_entitlement_debt, hδ, if_false]
    rw [adjust_debt_loop_exhausted delta cap _ ?_]
    intro o ho
    obtain ⟨i, _, rfl⟩ := List.mem_map.mp ho
    exact hobs i

/-- Witness for C4 (amended) at concrete schedules that defeat every CAS
attempt. -/
theorem cas_exhaustion_behaviour_witness :
    (5 ≤ ([none, none, none, none, none] : List (Option CreditLot)).length →
      consume_credit_lot_by_id
        (some { id := 3, user_id := "u1", lot_type := "pack_order", source_key := "ord1",
                granted_seconds := 100, consumed_seconds := 0, revoked_seconds := 0,
                pack_expires_at := none, status := "active" }) 10 0
        [none, none, none, none, none] 5 = (0, none))
    ∧ (5 ≤ ([none, none, none, none, none] : List (Option CreditLot)).length →
        revoke_remaining_credit_lot
          (some { id := 3, user_id := "u1", lot_type := "pack_order", source_key := "ord1",
                  granted_seconds := 100, consumed_seconds := 0, revoked_seconds := 0,
                  pack_expires_at := none, status := "active" })
          [none, none, none, none, none] = (0, none))
    ∧ ((7 : Int) ≠ 0 →
        (∀ i : Nat, ((fun _ : Nat => AdjustObs.mk none none false) i).cas_ok = false) →
        adjust_entitlement_debt 7 120 none (fun _ : Nat => AdjustObs.mk none none false)
          = .error (.externalService
              "Failed to adjust entitlement debt due to concurrent updates.")) :=
  cas_exhaustion_behaviour 10 0
    (some { id := 3, user_id := "u1", lot_type := "pack_order", source_key := "ord1",
            granted_seconds := 100, consumed_seconds := 0, revoked_seconds := 0,
            pack_expires_at := none, status := "active" })
    (some { id := 3, user_id := "u1", lot_type := "pack_order", source_key := "ord1",
            granted_seconds := 100, consumed_seconds := 0, revoked_seconds := 0,
            pack_expires_at := none, status := "active" })
    [none, none, none, none, none] [none, none, none, none, none]
    7 120 none (fun _ : Nat => AdjustObs.mk none none false)

/-! ## C10: consumption never exceeds the request -/

theorem consume_credit_lot_by_id_seq_bounds (store : Store) (lot_id : Nat)
    (seconds now : Int) (hs : 0 < seconds) :
    0 ≤ (consume_credit_lot_by_id_seq store lot_id seconds now).2 ∧
      (consume_credit_lot_by_id_seq store lot_id seconds now).2 ≤ seconds := by
  unfold consume_credit_lot_by_id_seq consume_credit_lot_by_id
  simp only [not_le.mpr hs, if_false]
  exact consume_lot_loop_result_bounds seconds now hs 5 _ []

theorem consume_lots_go_bounds (now : Int) :
    ∀ (lots : List CreditLot) (store : Store) (remaining : Int),
      0 ≤ (consume_lots_go now lots store remaining).2 ∧
        (consume_lots_go now lots store remaining).2 ≤ max remaining 0 := by
  intro lots
  induction lots with
  | nil => intro store remaining; exact ⟨le_refl 0, le_max_right _ _⟩
  | cons lot rest ih =>
    intro store remaining
    unfold consume_lots_go
    by_cases hr : remaining ≤ 0
    · simp only [hr, if_true]
      exact ⟨le_refl 0, le_max_right _ _⟩
    · simp only [hr, if_false]
      have hpos : 0 < remaining := by omega
      obtain ⟨hc0, hcle⟩ := consume_credit_lot_by_id_seq_bounds store lot.id remaining now hpos
      by_cases hc : (consume_credit_lot_by_id_seq store lot.id remaining now).2 ≤ 0
      · simp only [hc, if_true]
        exact ih _ remaining
      · simp only [hc, if_false]
        obtain ⟨ih0, ihle⟩ :=
          ih (consume_credit_lot_by_id_seq store lot.id remaining now).1
            (remaining - (consume_credit_lot_by_id_seq store lot.id remaining now).2)
        constructor
        · omega
        · simp only [ge_iff_le, le_max_iff] at ihle ⊢
          omega

/-- **C10.** For every user, lot type, store contents, and requested
`seconds_to_consume`, `consume_credit_lots` returns a total `c` with
`0 ≤ c ≤ max(seconds_to_consume, 0)`: it never consumes more than requested
across lots (each per-lot take is bounded by the still-unmet remainder), and
when `seconds_to_consume ≤ 0` it returns 0 without reading or mutating any
lot (the store is returned unchanged). -/
theorem consume_credit_lots_spec (store : Store) (user_id lot_type : String)
    (seconds_to_consume now : Int) (exclude_pack_source_keys : Option (List String)) :
    0 ≤ (consume_credit_lots store user_id lot_type seconds_to_consume now
          exclude_pack_source_keys).2
    ∧ (consume_credit_lots store user_id lot_type seconds_to_consume now
          exclude_pack_source_keys).2 ≤ max seconds_to_consume 0
    ∧ (seconds_to_consume ≤ 0 →
        consume_credit_lots store user_id lot_type seconds_to_consume now
          exclude_pack_source_keys = (store, 0)) := by
  unfold consume_credit_lots
  by_cases hs : seconds_to_consume ≤ 0
  · simp only [hs, if_true]
    exact ⟨le_refl 0, le_max_right _ _, by simp⟩
  · simp only [hs, if_false]
    obtain ⟨h0, hle⟩ := consume_lots_go_bounds now
      (list_credit_lots_for_consumption store user_id lot_type now
        exclude_pack_source_keys).2
      (list_credit_lots_for_consumption store user_id lot_type now
        exclude_pack_source_keys).1
      seconds_to_consume
    exact ⟨h0, hle, fun h => h.elim⟩

/-! ## Webhook event bookkeeping -/

theorem list_map_id_of {α : Type} (l : List α) (f : α → α) (h : ∀ a ∈ l, f a = a) :
    l.map f = l := by
  induction l with
  | nil => rfl
  | cons x xs ih =>
    simp only [List.map_cons, h x (List.mem_cons_self x xs),
      ih fun a ha => h a (List.mem_cons_of_mem _ ha)]

theorem list_any_eq_false {α : Type} (p : α → Bool) (l : List α)
    (h : ∀ a ∈ l, p a = false) : l.any p = false := by
  induction l with
  | nil => rfl
  | cons x xs ih =>
    simp only [List.any_cons, h x (List.mem_cons_self x xs), Bool.false_or]
    exact ih fun a ha => h a (List.mem_cons_of_mem _ ha)

/-- **C9.** `record_webhook_event_received` is an insert-if-absent keyed on
`event_id`: the first call for a given `event_id` inserts exactly one row in
status `received` and returns true, and every subsequent call with the same
`event_id` returns false on the unique-constraint violation without
inserting a second row or raising an error. -/
theorem record_webhook_event_received_spec (store : Store)
    (event_id provider event_type payload payload₂ : String)
    (h : ∀ ev ∈ store.webhook_events, ev.event_id ≠ event_id) :
    (record_webhook_event_received store event_id provider event_type payload).2 = true
    ∧ (record_webhook_event_received store event_id provider event_type payload).1.webhook_events
        = store.webhook_events ++
          [{ event_id := event_id, provider := provider, event_type := event_type,
             payload := payload, status := "received", claimed_at := none,
             processed_at := none, error := none }]
    ∧ record_webhook_event_received
        (record_webhook_event_received store event_id provider event_type payload).1
        event_id provider event_type payload₂
        = ((record_webhook_event_received store event_id provider event_type payload).1,
           false) := by
  have hany : store.webhook_events.any (fun ev => ev.event_id == event_id) = false :=
    list_any_eq_false _ _ fun ev hev => beq_eq_false_iff_ne.mpr (h ev hev)
  have h1 : record_webhook_event_received store event_id provider event_type payload
      = ({ store with webhook_events := store.webhook_events ++
            [{ event_id := event_id, provider := provider, event_type := event_type,
               payload := payload, status := "received", claimed_at := none,
               processed_at := none, error := none }] },
         true) := by
    simp only [record_webhook_event_received, hany, Bool.false_eq_true, if_false]
  refine ⟨by rw [h1], by rw [h1], ?_⟩
  rw [h1]
  have hany₂ : ((store.webhook_events ++
      ([{ event_id := event_id, provider := provider, event_type := event_type,
          payload := payload, status := "received", claimed_at := none,
          processed_at := none, error := none }] : List WebhookEvent)).any
        (fun ev => ev.event_id == event_id)) = true := by
    simp [List.any_append]
  simp only [record_webhook_event_received, hany₂, if_true]

/-- Witness for C9 on a store with no webhook rows. -/
theorem record_webhook_event_received_spec_witness :
    (record_webhook_event_received (Store.mk [] [] [] [] [] [] 0) "evt1" "polar" "order.paid" "{}").2 = true
    ∧ (record_webhook_event_received (Store.mk [] [] [] [] [] [] 0) "evt1" "polar" "order.paid" "{}").1.webhook_events
        = ([] : List WebhookEvent) ++
          [{ event_id := "evt1", provider := "polar", event_type := "order.paid",
             payload := "{}", status := "received", claimed_at := none,
             processed_at := none, error := none }]
    ∧ record_webhook_event_received
        (record_webhook_event_received (Store.mk [] [] [] [] [] [] 0) "evt1" "polar" "order.paid" "{}").1
        "evt1" "polar" "order.paid" "{}"
        = ((record_webhook_event_received (Store.mk [] [] [] [] [] [] 0) "evt1" "polar" "order.paid" "{}").1,
           false) :=
  record_webhook_event_received_spec (Store.mk [] [] [] [] [] [] 0)
    "evt1" "polar" "order.paid" "{}" "{}" (by simp)

theorem webhook_claimable_eq_true (event_id : String) (ev : WebhookEvent) :
    webhook_claimable event_id ev = true ↔
      ev.event_id = event_id ∧ (ev.status = "received" ∨ ev.status = "failed") := by
  unfold webhook_claimable
  simp [Bool.and_eq_true, Bool.or_eq_true, beq_iff_eq]

theorem webhook_claim_stale_eq_true (event_id : String) (cutoff : Int) (ev : WebhookEvent) :
    webhook_claim_stale event_id cutoff ev = true ↔
      ev.event_id = event_id ∧ ev.status = "processing" ∧
        ∃ t, ev.claimed_at = some t ∧ t < cutoff := by
  unfold webhook_claim_stale
  cases hc : ev.claimed_at with
  | none => simp [hc]
  | some t => simp [hc, Bool.and_eq_true, beq_iff_eq, and_assoc]

/-- **C3.** With a single row for the event in the store: (1) the reclaim
transition succeeds exactly when that event is in status `processing` with a
claim older than the cutoff; (2) when `handle_polar_webhook`'s first claim
attempt fails on a `processing` event whose claim is not older than the
300-second staleness threshold, the reclaim fails, no second claim succeeds,
and the store is left untouched — a non-stale processing event is never
claimed by a second caller; (3) on a stale `processing` claim the reclaim
succeeds, the claim is retried exactly once (two claim attempts in total),
and the caller takes the event over under a fresh claim. -/
theorem handle_polar_webhook_claim_phase_spec (store : Store) (event_id : String)
    (now : Int) (ev : WebhookEvent)
    (hmem : ev ∈ store.webhook_events) (hid : ev.event_id = event_id)
    (huniq : ∀ e ∈ store.webhook_events, e.event_id = event_id → e = ev) :
    (∀ cutoff : Int,
      (reclaim_stale_processing_webhook_event store event_id cutoff).2 = true ↔
        (ev.status = "processing" ∧ ∃ t, ev.claimed_at = some t ∧ t < cutoff))
    ∧ (ev.status = "processing" →
        (∀ t, ev.claimed_at = some t → now - WEBHOOK_PROCESSING_STALE_SECONDS ≤ t) →
        handle_polar_webhook_claim_phase store event_id now = (store, false, 1))
    ∧ (∀ t, ev.status = "processing" → ev.claimed_at = some t →
        t < now - WEBHOOK_PROCESSING_STALE_SECONDS →
        (handle_polar_webhook_claim_phase store event_id now).2.1 = true
        ∧ (handle_polar_webhook_claim_phase store event_id now).2.2 = 2
        ∧ { ev with status := "processing", claimed_at := some now,
                    processed_at := none, error := none }
            ∈ (handle_polar_webhook_claim_phase store event_id now).1.webhook_events) := by
  have claim_noop : ev.status = "processing" →
      claim_webhook_event_for_processing store event_id now = (store, false) := by
    intro hst
    have hpt : ∀ e ∈ store.webhook_events, webhook_claimable event_id e = false := by
      intro e he
      apply Bool.eq_false_iff.mpr
      intro hx
      obtain ⟨he1, he2⟩ := (webhook_claimable_eq_true event_id e).mp hx
      have hee : e = ev := huniq e he he1
      subst hee
      rw [hst] at he2
      rcases he2 with h2 | h2 <;> exact absurd h2 (by decide)
    unfold claim_webhook_event_for_processing
    rw [list_map_id_of _ _ (fun e he => by simp [hpt e he]),
      list_any_eq_false _ _ hpt]
  refine ⟨?_, ?_, ?_⟩
  · intro cutoff
    unfold reclaim_stale_processing_webhook_event
    constructor
    · intro hany
      obtain ⟨e, he, hp⟩ := List.any_eq_true.mp hany
      obtain ⟨he1, he2, he3⟩ := (webhook_claim_stale_eq_true event_id cutoff e).mp hp
      have hee : e = ev := huniq e he he1
      subst hee
      exact ⟨he2, he3⟩
    · rintro ⟨hst, t, hc, hlt⟩
      exact List.any_eq_true.mpr
        ⟨ev, hmem, (webhook_claim_stale_eq_true event_id cutoff ev).mpr ⟨hid, hst, t, hc, hlt⟩⟩
  · intro hst hfresh
    have hstale_pt : ∀ e ∈ store.webhook_events,
        webhook_claim_stale event_id (now - WEBHOOK_PROCESSING_STALE_SECONDS) e = false := by
      intro e he
      apply Bool.eq_false_iff.mpr
      intro hx
      obtain ⟨he1, _, t, hc, hlt⟩ :=
        (webhook_claim_stale_eq_true event_id (now - WEBHOOK_PROCESSING_STALE_SECONDS) e).mp hx
      have hee : e = ev := huniq e he he1
      subst hee
      exact absurd hlt (not_lt.mpr (hfresh t hc))
    have reclaim_noop :
        reclaim_stale_processing_webhook_event store event_id
          (now - WEBHOOK_PROCESSING_STALE_SECONDS) = (store, false) := by
      unfold reclaim_stale_processing_webhook_event
      rw [list_map_id_of _ _ (fun e he => by simp [hstale_pt e he]),
        list_any_eq_false _ _ hstale_pt]
    unfold handle_polar_webhook_claim_phase
    rw [claim_noop hst]
    simp only [Bool.false_eq_true, if_false]
    rw [reclaim_noop]
    simp
  · intro t hst hc hlt
    have hany_stale :
        store.webhook_events.any
          (webhook_claim_stale event_id (now - WEBHOOK_PROCESSING_STALE_SECONDS)) = true :=
      List.any_eq_true.mpr
        ⟨ev, hmem,
         (webhook_claim_stale_eq_true event_id _ ev).mpr ⟨hid, hst, t, hc, hlt⟩⟩
    have hgev :
        (if webhook_claim_stale event_id (now - WEBHOOK_PROCESSING_STALE_SECONDS) ev then
            { ev with status := "failed" }
          else ev) = { ev with status := "failed" } :=
      if_pos ((webhook_claim_stale_eq_true event_id _ ev).mpr ⟨hid, hst, t, hc, hlt⟩)
    have hmem₂ : ({ ev with status := "failed" } : WebhookEvent) ∈
        (store.webhook_events.map (fun e =>
          if webhook_claim_stale event_id (now - WEBHOOK_PROCESSING_STALE_SECONDS) e then
            { e with status := "failed" }
          else e)) := by
      rw [← hgev]
      exact List.mem_map_of_mem _ hmem
    have hclaimable₂ : webhook_claimable event_id ({ ev with status := "failed" } : WebhookEvent) = true :=
      (webhook_claimable_eq_true event_id _).mpr ⟨hid, Or.inr rfl⟩
    have hany₂ :
        ((store.webhook_events.map (fun e =>
            if webhook_claim_stale event_id (now - WEBHOOK_PROCESSING_STALE_SECONDS) e then
              { e with status := "failed" }
            else e)).any (webhook_claimable event_id)) = true :=
      List.any_eq_true.mpr ⟨{ ev with status := "failed" }, hmem₂, hclaimable₂⟩
    unfold handle_polar_webhook_claim_phase
    rw [claim_noop hst]
    simp only [Bool.false_eq_true, if_false]
    unfold reclaim_stale_processing_webhook_event
    simp only [hany₂, hany_stale, if_true]
    unfold claim_webhook_event_for_processing
    simp only [hany₂, if_true]
    refine ⟨by trivial, by trivial, ?_⟩
    have hfinal :
        ({ ev with status := "processing", claimed_at := some now,
                   processed_at := none, error := none } : WebhookEvent)
          = (if webhook_claimable event_id ({ ev with status := "failed" } : WebhookEvent) then
              { ({ ev with status := "failed" } : WebhookEvent) with
                  status := "processing", claimed_at := some now,
                  processed_at := none, error := none }
            else { ev with status := "failed" }) := by
      rw [if_pos hclaimable₂]
    rw [hfinal]
    exact List.mem_map_of_mem _ hmem₂

/-- Witness for C3: a single `processing` event claimed at time 0, examined
at time 400 with the 300-second threshold (so the claim is stale). -/
theorem handle_polar_webhook_claim_phase_spec_witness :
    (∀ cutoff : Int,
      (reclaim_stale_processing_webhook_event
          (Store.mk [] [] [] [] [] [WebhookEvent.mk "evt1" "polar" "order.paid" "{}" "processing" (some 0) none none] 0)
          "evt1" cutoff).2 = true ↔
        ((WebhookEvent.mk "evt1" "polar" "order.paid" "{}" "processing" (some 0) none none).status = "processing" ∧
          ∃ t, (WebhookEvent.mk "evt1" "polar" "order.paid" "{}" "processing" (some 0) none none).claimed_at = some t ∧ t < cutoff))
    ∧ ((WebhookEvent.mk "evt1" "polar" "order.paid" "{}" "processing" (some 0) none none).status = "processing" →
        (∀ t, (WebhookEvent.mk "evt1" "polar" "order.paid" "{}" "processing" (some 0) none none).claimed_at = some t →
          (400 : Int) - WEBHOOK_PROCESSING_STALE_SECONDS ≤ t) →
        handle_polar_webhook_claim_phase
          (Store.mk [] [] [] [] [] [WebhookEvent.mk "evt1" "polar" "order.paid" "{}" "processing" (some 0) none none] 0)
          "evt1" 400
          = (Store.mk [] [] [] [] [] [WebhookEvent.mk "evt1" "polar" "order.paid" "{}" "processing" (some 0) none none] 0,
             false, 1))
    ∧ (∀ t, (WebhookEvent.mk "evt1" "polar" "order.paid" "{}" "processing" (some 0) none none).status = "processing" →
        (WebhookEvent.mk "evt1" "polar" "order.paid" "{}" "processing" (some 0) none none).claimed_at = some t →
        t < (400 : Int) - WEBHOOK_PROCESSING_STALE_SECONDS →
        (handle_polar_webhook_claim_phase
            (Store.mk [] [] [] [] [] [WebhookEvent.mk "evt1" "polar" "order.paid" "{}" "processing" (some 0) none none] 0)
            "evt1" 400).2.1 = true
        ∧ (handle_polar_webhook_claim_phase
            (Store.mk [] [] [] [] [] [WebhookEvent.mk "evt1" "polar" "order.paid" "{}" "processing" (some 0) none none] 0)
            "evt1" 400).2.2 = 2
        ∧ { WebhookEvent.mk "evt1" "polar" "order.paid" "{}" "processing" (some 0) none none with
              status := "processing", claimed_at := some 400,
              processed_at := none, error := none }
            ∈ (handle_polar_webhook_claim_phase
                (Store.mk [] [] [] [] [] [WebhookEvent.mk "evt1" "polar" "order.paid" "{}" "processing" (some 0) none none] 0)
                "evt1" 400).1.webhook_events) :=
  handle_polar_webhook_claim_phase_spec
    (Store.mk [] [] [] [] [] [WebhookEvent.mk "evt1" "polar" "order.paid" "{}" "processing" (some 0) none none] 0)
    "evt1" 400
    (WebhookEvent.mk "evt1" "polar" "order.paid" "{}" "processing" (some 0) none none)
    (by simp) rfl (by simp)

/-- **C2 (code bug).** On a paid pack order with positive refundable amount,
`request_pack_refund` does CAS-transition the order `paid → refund_pending`,
but the snapshot re-sync that follows raises `TypeError` — its
`summarize_credit_lots` call passes the keyword `exclude_pack_source_keys`,
which `summarize_credit_lots` as defined does not declare — so the sync
never completes: the entitlement snapshot is left untouched (its
`pack_available_seconds` still counts the frozen pack's 2400 remaining
seconds) and the provider refund call is never reached, whatever the
provider outcome would have been. -/
theorem request_pack_refund_sync_type_error (polar : PolarOutcome) :
    (request_pack_refund refund_demo_store "ord1" "u1" 36000 0 polar).2
      = .error (.typeError
          "summarize_credit_lots() got an unexpected keyword argument: exclude_pack_source_keys")
    ∧ (request_pack_refund refund_demo_store "ord1" "u1" 36000 0 polar).1.billing_orders
        = [{ refund_demo_order with status := "refund_pending" }]
    ∧ (request_pack_refund refund_demo_store "ord1" "u1" 36000 0 polar).1.entitlements
        = [refund_demo_entitlement] :=
  ⟨rfl, rfl, rfl⟩

/-! ## C6: proportional refund amount -/

/-- **C6.** For every pack order with status `paid`, `granted_seconds > 0`,
`paid_amount_cents > 0` and positive remaining, the requested refund amount
computed by `request_pack_refund` (lines 277-288, embedded as
`pack_refund_requested_amount` and used by the embedded
`request_pack_refund`) is exactly
`floor(paid_amount_cents * remaining / granted_seconds)` whenever that floor
is positive; in particular a lot with granted=3600 and consumed=1200
(remaining 2400) on an order paid 3000 cents yields exactly 2000 cents. -/
theorem pack_refund_requested_amount_spec (order : BillingOrder) (lot : CreditLot)
    (hplan : order.plan_type = "pack") (hstatus : order.status = "paid")
    (hg : 0 < lot.granted_seconds) (hp : 0 < order.paid_amount_cents)
    (hr : 0 < remaining_seconds_from_lot lot)
    (hpos : 0 < Int.fdiv (order.paid_amount_cents * remaining_seconds_from_lot lot)
                  lot.granted_seconds) :
    pack_refund_requested_amount order lot
      = .ok (Int.fdiv (order.paid_amount_cents * remaining_seconds_from_lot lot)
              lot.granted_seconds)
    ∧ pack_refund_requested_amount
        { id := 1, polar_order_id := "ord1", user_id := "u1", plan_type := "pack",
          paid_amount_cents := 3000, refunded_amount_cents := 0, status := "paid" }
        { id := 1, user_id := "u1", lot_type := "pack_order", source_key := "ord1",
          granted_seconds := 3600, consumed_seconds := 1200, revoked_seconds := 0,
          pack_expires_at := none, status := "active" } = .ok 2000 := by
  constructor
  · simp only [pack_refund_requested_amount]
    rw [if_neg (by omega), if_neg (by omega), if_neg (by omega)]
  · rfl

/-- Witness for C6 at the spec's own example: granted 3600, consumed 1200,
paid 3000 cents. -/
theorem pack_refund_requested_amount_spec_witness :
    pack_refund_requested_amount
        { id := 1, polar_order_id := "ord1", user_id := "u1", plan_type := "pack",
          paid_amount_cents := 3000, refunded_amount_cents := 0, status := "paid" }
        { id := 2, user_id := "u1", lot_type := "pack_order", source_key := "ord1",
          granted_seconds := 3600, consumed_seconds := 1200, revoked_seconds := 0,
          pack_expires_at := none, status := "active" }
      = .ok (Int.fdiv ((3000 : Int) * remaining_seconds_from_lot
              { id := 2, user_id := "u1", lot_type := "pack_order", source_key := "ord1",
                granted_seconds := 3600, consumed_seconds := 1200, revoked_seconds := 0,
                pack_expires_at := none, status := "active" }) 3600)
    ∧ pack_refund_requested_amount
        { id := 1, polar_order_id := "ord1", user_id := "u1", plan_type := "pack",
          paid_amount_cents := 3000, refunded_amount_cents := 0, status := "paid" }
        { id := 1, user_id := "u1", lot_type := "pack_order", source_key := "ord1",
          granted_seconds := 3600, consumed_seconds := 1200, revoked_seconds := 0,
          pack_expires_at := none, status := "active" } = .ok 2000 :=
  pack_refund_requested_amount_spec
    { id := 1, polar_order_id := "ord1", user_id := "u1", plan_type := "pack",
      paid_amount_cents := 3000, refunded_amount_cents := 0, status := "paid" }
    { id := 2, user_id := "u1", lot_type := "pack_order", source_key := "ord1",
      granted_seconds := 3600, consumed_seconds := 1200, revoked_seconds := 0,
      pack_expires_at := none, status := "active" }
    rfl rfl (by decide) (by decide) (by decide) (by decide)

/-! ## Frame lemmas for C8 -/

theorem applyLotWrite_frame (store : Store) (lot_id : Nat) (w : Option CreditLot) :
    (applyLotWrite store lot_id w).usage_ledger = store.usage_ledger ∧
      (applyLotWrite store lot_id w).entitlements = store.entitlements := by
  cases w <;> exact ⟨rfl, rfl⟩

theorem consume_credit_lot_by_id_seq_frame (store : Store) (lot_id : Nat)
    (seconds now : Int) :
    (consume_credit_lot_by_id_seq store lot_id seconds now).1.usage_ledger
        = store.usage_ledger ∧
      (consume_credit_lot_by_id_seq store lot_id seconds now).1.entitlements
        = store.entitlements :=
  applyLotWrite_frame store lot_id _

theorem list_credit_lots_go_frame (now : Int) :
    ∀ (rows : List CreditLot) (store : Store),
      (list_credit_lots_go now rows store).1.usage_ledger = store.usage_ledger ∧
        (list_credit_lots_go now rows store).1.entitlements = store.entitlements := by
  intro rows
  induction rows with
  | nil => intro store; exact ⟨rfl, rfl⟩
  | cons row rest ih =>
    intro store
    unfold list_credit_lots_go
    by_cases h1 : lotExpired row now = true
    · simp only [h1, if_true]
      exact ih _
    · simp only [h1, Bool.false_eq_true, if_false]
      by_cases h2 : remaining_seconds_from_lot row ≤ 0
      · simp only [h2, if_true]
        exact ih _
      · simp only [h2, if_false]
        exact ih _

theorem consume_lots_go_frame (now : Int) :
    ∀ (lots : List CreditLot) (store : Store) (remaining : Int),
      (consume_lots_go now lots store remaining).1.usage_ledger = store.usage_ledger ∧
        (consume_lots_go now lots store remaining).1.entitlements = store.entitlements := by
  intro lots
  induction lots with
  | nil => intro store remaining; exact ⟨rfl, rfl⟩
  | cons lot rest ih =>
    intro store remaining
    unfold consume_lots_go
    by_cases hr : remaining ≤ 0
    · simp only [hr, if_true]
      exact ⟨by trivial, by trivial⟩
    · simp only [hr, if_false]
      obtain ⟨hl1, hl2⟩ := consume_credit_lot_by_id_seq_frame store lot.id remaining now
      by_cases hc : (consume_credit_lot_by_id_seq store lot.id remaining now).2 ≤ 0
      · simp only [hc, if_true]
        obtain ⟨ha, hb⟩ := ih (consume_credit_lot_by_id_seq store lot.id remaining now).1 remaining
        exact ⟨ha.trans hl1, hb.trans hl2⟩
      · simp only [hc, if_false]
        obtain ⟨ha, hb⟩ := ih (consume_credit_lot_by_id_seq store lot.id remaining now).1
          (remaining - (consume_credit_lot_by_id_seq store lot.id remaining now).2)
        exact ⟨ha.trans hl1, hb.trans hl2⟩

theorem consume_credit_lots_frame (store : Store) (user_id lot_type : String)
    (seconds_to_consume now : Int) (exclude : Option (List String)) :
    (consume_credit_lots store user_id lot_type seconds_to_consume now exclude).1.usage_ledger
        = store.usage_ledger ∧
      (consume_credit_lots store user_id lot_type seconds_to_consume now exclude).1.entitlements
        = store.entitlements := by
  unfold consume_credit_lots
  by_cases hs : seconds_to_consume ≤ 0
  · simp only [hs, if_true]
    exact ⟨by trivial, by trivial⟩
  · simp only [hs, if_false]
    obtain ⟨ha, hb⟩ := consume_lots_go_frame now
      (list_credit_lots_for_consumption store user_id lot_type now exclude).2
      (list_credit_lots_for_consumption store user_id lot_type now exclude).1
      seconds_to_consume
    obtain ⟨hc, hd⟩ := list_credit_lots_go_frame now _ store
    refine ⟨ha.trans ?_, hb.trans ?_⟩
    · exact hc
    · exact hd

theorem summarize_go_frame (now : Int) :
    ∀ (rows : List CreditLot) (store : Store) (sub pack : Int) (nextExp : Option Int),
      (summarize_go now rows store sub pack nextExp).1.usage_ledger = store.usage_ledger ∧
        (summarize_go now rows store sub pack nextExp).1.entitlements = store.entitlements := by
  intro rows
  induction rows with
  | nil => intro store sub pack nextExp; exact ⟨rfl, rfl⟩
  | cons row rest ih =>
    intro store sub pack nextExp
    unfold summarize_go
    by_cases h1 : lotExpired row now = true
    · simp only [h1, if_true]
      exact ih _ _ _ _
    · simp only [h1, Bool.false_eq_true, if_false]
      by_cases h2 : remaining_seconds_from_lot row ≤ 0
      · simp only [h2, if_true]
        exact ih _ _ _ _
      · simp only [h2, if_false]
        by_cases h3 : (row.lot_type == "subscription_cycle") = true
        · simp only [h3, if_true]
          exact ih _ _ _ _
        · simp only [h3, Bool.false_eq_true, if_false]
          by_cases h4 : (row.lot_type == "pack_order") = true
          · simp only [h4, if_true]
            exact ih _ _ _ _
          · simp only [h4, Bool.false_eq_true, if_false]
            exact ih _ _ _ _

theorem update_entitlement_snapshot_ledger (store : Store) (user_id : String)
    (sub pack : Int) (packExp : Option Int) (debt : Int) (blocked : Bool) (t : Int) :
    (update_entitlement_snapshot store user_id sub pack packExp debt blocked t).usage_ledger
      = store.usage_ledger := by
  unfold update_entitlement_snapshot upsert_entitlement_with
  split <;> rfl

theorem list_all_false_of_any_false {α : Type} (p : α → Bool) (l : List α)
    (h : l.any p = false) : ∀ a ∈ l, p a = false := by
  induction l with
  | nil => intro a ha; simp at ha
  | cons x xs ih =>
    intro a ha
    simp only [List.any_cons, Bool.or_eq_false_iff] at h
    rcases List.mem_cons.mp ha with rfl | ha'
    · exact h.1
    · exact ih h.2 a ha'

theorem find_map_upsert_of_any (user_id : String) (f : Entitlement → Entitlement)
    (hf : ∀ e, (f e).user_id = e.user_id) :
    ∀ l : List Entitlement, l.any (fun e => e.user_id == user_id) = true →
      ∃ b, (l.map (fun e => if e.user_id == user_id then f e else e)).find?
              (fun e => e.user_id == user_id) = some (f b) := by
  intro l
  induction l with
  | nil => intro h; simp at h
  | cons x xs ih =>
    intro h
    by_cases hx : x.user_id = user_id
    · refine ⟨x, ?_⟩
      have hxb : (x.user_id == user_id) = true := beq_iff_eq.mpr hx
      simp only [List.map_cons, hxb, if_true]
      exact List.find?_cons_of_pos _ (by rw [hf x]; exact hxb)
    · have hxb : (x.user_id == user_id) = false := beq_eq_false_iff_ne.mpr hx
      simp only [List.map_cons, hxb, Bool.false_eq_true, if_false]
      rw [List.find?_cons_of_neg _ (by rw [hxb]; exact Bool.false_ne_true)]
      apply ih
      simpa [List.any_cons, hxb] using h

theorem find_append_singleton_of_none (user_id : String) :
    ∀ (l : List Entitlement) (x : Entitlement),
      (∀ e ∈ l, (e.user_id == user_id) = false) → (x.user_id == user_id) = true →
      (l ++ [x]).find? (fun e => e.user_id == user_id) = some x := by
  intro l
  induction l with
  | nil =>
    intro x _ hx
    simp only [List.nil_append]
    exact List.find?_cons_of_pos _ hx
  | cons y ys ih =>
    intro x h hx
    rw [List.cons_append,
      List.find?_cons_of_neg _ (by rw [h y (List.mem_cons_self y ys)]; exact Bool.false_ne_true)]
    exact ih x (fun e he => h e (List.mem_cons_of_mem _ he)) hx

theorem fetch_entitlement_upsert (store : Store) (user_id : String)
    (f : Entitlement → Entitlement) (hf : ∀ e, (f e).user_id = e.user_id) :
    ∃ b, fetch_entitlement (upsert_entitlement_with store user_id f) user_id = some (f b) := by
  unfold fetch_entitlement upsert_entitlement_with
  by_cases hany : store.entitlements.any (fun e => e.user_id == user_id) = true
  · simp only [hany, if_true]
    exact find_map_upsert_of_any user_id f hf store.entitlements hany
  · have hfalse : store.entitlements.any (fun e => e.user_id == user_id) = false :=
      Bool.eq_false_iff.mpr hany
    simp only [hfalse, Bool.false_eq_true, if_false]
    refine ⟨default_entitlement user_id,
      find_append_singleton_of_none user_id store.entitlements _
        (list_all_false_of_any_false _ _ hfalse) ?_⟩
    rw [hf (default_entitlement user_id)]
    exact beq_iff_eq.mpr rfl

theorem fetch_entitlement_after_snapshot (store : Store) (user_id : String)
    (sub pack : Int) (packExp : Option Int) (debt : Int) (blocked : Bool) (t : Int) :
    ∃ e, fetch_entitlement
          (update_entitlement_snapshot store user_id sub pack packExp debt blocked t) user_id
        = some e ∧ e.debt_seconds = debt ∧ e.is_blocked = blocked := by
  obtain ⟨b, hb⟩ := fetch_entitlement_upsert store user_id
    (fun e => { e with subscription_available_seconds := sub,
                       pack_available_seconds := pack,
                       pack_expires_at := packExp,
                       debt_seconds := debt,
                       is_blocked := blocked,
                       last_balance_sync_at := some t })
    (fun e => rfl)
  exact ⟨_, hb, rfl, rfl⟩

theorem usage_sync_snapshot_spec (store : Store) (user_id : String)
    (debt_cap_seconds debt_seconds now : Int) :
    (usage_sync_entitlement_snapshot store user_id debt_cap_seconds debt_seconds now).1.usage_ledger
        = store.usage_ledger
    ∧ ∃ e, fetch_entitlement
          (usage_sync_entitlement_snapshot store user_id debt_cap_seconds debt_seconds now).1
          user_id
        = some e ∧ e.debt_seconds = debt_seconds
        ∧ e.is_blocked = decide (debt_cap_seconds ≤ debt_seconds) := by
  unfold usage_sync_entitlement_snapshot summarize_credit_lots
  constructor
  · rw [update_entitlement_snapshot_ledger]
    exact (summarize_go_frame now _ store 0 0 none).1
  · exact fetch_entitlement_after_snapshot _ user_id _ _ _ _ _ _

/-- **C8.** `record_usage_for_job` with missing or non-positive
`duration_seconds` performs no mutation; with `duration_seconds > 0` it
consumes from `subscription_cycle` lots first and only then from
`pack_order` lots (requesting exactly the unmet leftover), appends one
usage-ledger entry per non-zero partial consumption tagged
`subscription`/`pack`, and the debt written by the final snapshot sync
satisfies `debt_after = max(debt_before + shortfall, 0)` with
`shortfall = duration - (consumed_subscription + consumed_pack)`. -/
theorem record_usage_for_job_spec (store : Store) (user_id job_id : String)
    (duration_seconds : Option Int) (debt_cap_seconds now : Int) (ent : Entitlement)
    (hfetch : fetch_entitlement store user_id = some ent)
    (hdebt : 0 ≤ ent.debt_seconds) :
    (duration_seconds = none →
      record_usage_for_job store user_id job_id duration_seconds debt_cap_seconds now
        = .ok store)
    ∧ (∀ d : Int, duration_seconds = some d → d ≤ 0 →
        record_usage_for_job store user_id job_id duration_seconds debt_cap_seconds now
          = .ok store)
    ∧ (∀ d : Int, duration_seconds = some d → 0 < d →
        ∃ cs cp : Int, ∃ store' : Store,
          cs = (consume_credit_lots store user_id "subscription_cycle" d now none).2
          ∧ cp = (if 0 < d - cs then
                    (consume_credit_lots
                      (if 0 < cs then
                        insert_usage_entry
                          (consume_credit_lots store user_id "subscription_cycle" d now none).1
                          user_id (if job_id = "" then none else some job_id) cs "subscription"
                      else (consume_credit_lots store user_id "subscription_cycle" d now none).1)
                      user_id "pack_order" (d - cs) now none).2
                  else 0)
          ∧ 0 ≤ cs ∧ 0 ≤ cp ∧ cs + cp ≤ d
          ∧ record_usage_for_job store user_id job_id duration_seconds debt_cap_seconds now
              = .ok store'
          ∧ store'.usage_ledger
              = store.usage_ledger
                ++ (if 0 < cs then
                      [{ user_id := user_id,
                         job_id := if job_id = "" then none else some job_id,
                         seconds_used := cs, source := "subscription" }] else [])
                ++ (if 0 < cp then
                      [{ user_id := user_id,
                         job_id := if job_id = "" then none else some job_id,
                         seconds_used := cp, source := "pack" }] else [])
          ∧ ∃ ent', fetch_entitlement store' user_id = some ent'
              ∧ ent'.debt_seconds = max (ent.debt_seconds + (d - cs - cp)) 0) := by
  refine ⟨?_, ?_, ?_⟩
  · intro h
    subst h
    rfl
  · intro d hd hle
    subst hd
    unfold record_usage_for_job
    simp only [if_pos hle]
  · intro d hd hdpos
    subst hd
    have hdneg : ¬ d ≤ 0 := not_le.mpr hdpos
    unfold record_usage_for_job
    simp only [hfetch, if_neg hdneg]
    obtain ⟨hcs0, hcsle, -⟩ :=
      consume_credit_lots_spec store user_id "subscription_cycle" d now none
    obtain ⟨hfr1l, hfr1e⟩ :=
      consume_credit_lots_frame store user_id "subscription_cycle" d now none
    generalize hR₁ : consume_credit_lots store user_id "subscription_cycle" d now none = R₁
      at hcs0 hcsle hfr1l hfr1e ⊢
    have hcsd : R₁.2 ≤ d := by omega
    have hrem₁ : (if 0 < R₁.2 then d - R₁.2 else d) = d - R₁.2 := by split <;> omega
    simp only [hrem₁]
    by_cases hsub : 0 < R₁.2
    · simp only [if_pos hsub]
      obtain ⟨hcp0, hcple, -⟩ :=
        consume_credit_lots_spec
          (insert_usage_entry R₁.1 user_id (if job_id = "" then none else some job_id)
            R₁.2 "subscription")
          user_id "pack_order" (d - R₁.2) now none
      obtain ⟨hfr2l, hfr2e⟩ :=
        consume_credit_lots_frame
          (insert_usage_entry R₁.1 user_id (if job_id = "" then none else some job_id)
            R₁.2 "subscription")
          user_id "pack_order" (d - R₁.2) now none
      generalize hR₂ :
        consume_credit_lots
          (insert_usage_entry R₁.1 user_id (if job_id = "" then none else some job_id)
            R₁.2 "subscription")
          user_id "pack_order" (d - R₁.2) now none = R₂
        at hcp0 hcple hfr2l hfr2e ⊢
      by_cases hpack : 0 < d - R₁.2
      · simp only [if_pos hpack]
        by_cases hcpp : 0 < R₂.2
        · simp only [if_pos hcpp]
          refine ⟨R₁.2, R₂.2, _, rfl, ?_, hcs0, by omega, by omega, rfl, ?_, ?_⟩
          · simp only [if_pos hsub, if_pos hpack]
            rw [hR₂]
          · rw [(usage_sync_snapshot_spec
                (insert_usage_entry R₂.1 user_id (if job_id = "" then none else some job_id)
                  R₂.2 "pack")
                user_id debt_cap_seconds
                (ent.debt_seconds + max (d - R₁.2 - R₂.2) 0) now).1]
            simp only [if_pos hsub, if_pos hcpp, insert_usage_entry]
            rw [hfr2l]
            simp only [insert_usage_entry]
            rw [hfr1l]
          · obtain ⟨e, he, hdd, -⟩ := (usage_sync_snapshot_spec
                (insert_usage_entry R₂.1 user_id (if job_id = "" then none else some job_id)
                  R₂.2 "pack")
                user_id debt_cap_seconds
                (ent.debt_seconds + max (d - R₁.2 - R₂.2) 0) now).2
            exact ⟨e, he, by rw [hdd]; omega⟩
        · simp only [if_neg hcpp]
          refine ⟨R₁.2, R₂.2, _, rfl, ?_, hcs0, by omega, by omega, rfl, ?_, ?_⟩
          · simp only [if_pos hsub, if_pos hpack]
            rw [hR₂]
          · rw [(usage_sync_snapshot_spec R₂.1 user_id debt_cap_seconds
                (ent.debt_seconds + max (d - R₁.2) 0) now).1]
            simp only [if_pos hsub, if_neg hcpp]
            rw [hfr2l]
            simp only [insert_usage_entry]
            rw [hfr1l, List.append_nil]
          · obtain ⟨e, he, hdd, -⟩ := (usage_sync_snapshot_spec R₂.1 user_id debt_cap_seconds
                (ent.debt_seconds + max (d - R₁.2) 0) now).2
            exact ⟨e, he, by rw [hdd]; omega⟩
      · simp only [if_neg hpack]
        simp only [lt_self_iff_false, if_false]
        refine ⟨R₁.2, 0, _, rfl, ?_, hcs0, le_refl 0, by omega, rfl, ?_, ?_⟩
        · simp only [if_pos hsub, if_neg hpack]
        · rw [(usage_sync_snapshot_spec
              (insert_usage_entry R₁.1 user_id (if job_id = "" then none else some job_id)
                R₁.2 "subscription")
              user_id debt_cap_seconds
              (ent.debt_seconds + max (d - R₁.2) 0) now).1]
          simp only [if_pos hsub, lt_self_iff_false, if_false, insert_usage_entry]
          rw [hfr1l, List.append_nil]
        · obtain ⟨e, he, hdd, -⟩ := (usage_sync_snapshot_spec
              (insert_usage_entry R₁.1 user_id (if job_id = "" then none else some job_id)
                R₁.2 "subscription")
              user_id debt_cap_seconds
              (ent.debt_seconds + max (d - R₁.2) 0) now).2
          exact ⟨e, he, by rw [hdd]; omega⟩
    · simp only [if_neg hsub]
      have hpack : 0 < d - R₁.2 := by omega
      simp only [if_pos hpack]
      obtain ⟨hcp0, hcple, -⟩ :=
        consume_credit_lots_spec R₁.1 user_id "pack_order" (d - R₁.2) now none
      obtain ⟨hfr2l, hfr2e⟩ :=
        consume_credit_lots_frame R₁.1 user_id "pack_order" (d - R₁.2) now none
      generalize hR₂ :
        consume_credit_lots R₁.1 user_id "pack_order" (d - R₁.2) now none = R₂
        at hcp0 hcple hfr2l hfr2e ⊢
      by_cases hcpp : 0 < R₂.2
      · simp only [if_pos hcpp]
        refine ⟨R₁.2, R₂.2, _, rfl, ?_, hcs0, by omega, by omega, rfl, ?_, ?_⟩
        · simp only [if_neg hsub, if_pos hpack]
          rw [hR₂]
        · rw [(usage_sync_snapshot_spec
              (insert_usage_entry R₂.1 user_id (if job_id = "" then none else some job_id)
                R₂.2 "pack")
              user_id debt_cap_seconds
              (ent.debt_seconds + max (d - R₁.2 - R₂.2) 0) now).1]
          simp only [if_neg hsub, if_pos hcpp, insert_usage_entry, List.append_nil]
          rw [hfr2l, hfr1l]
        · obtain ⟨e, he, hdd, -⟩ := (usage_sync_snapshot_spec
              (insert_usage_entry R₂.1 user_id (if job_id = "" then none else some job_id)
                R₂.2 "pack")
              user_id debt_cap_seconds
              (ent.debt_seconds + max (d - R₁.2 - R₂.2) 0) now).2
          exact ⟨e, he, by rw [hdd]; omega⟩
      · simp only [if_neg hcpp]
        refine ⟨R₁.2, R₂.2, _, rfl, ?_, hcs0, by omega, by omega, rfl, ?_, ?_⟩
        · simp only [if_neg hsub, if_pos hpack]
          rw [hR₂]
        · rw [(usage_sync_snapshot_spec R₂.1 user_id debt_cap_seconds
              (ent.debt_seconds + max (d - R₁.2) 0) now).1]
          simp only [if_neg hsub, if_neg hcpp, List.append_nil]
          rw [hfr2l, hfr1l]
        · obtain ⟨e, he, hdd, -⟩ := (usage_sync_snapshot_spec R₂.1 user_id debt_cap_seconds
              (ent.debt_seconds + max (d - R₁.2) 0) now).2
          exact ⟨e, he, by rw [hdd]; omega⟩

/-- Witness for C8: missing and non-positive durations are no-ops on a
concrete store. -/
theorem record_usage_for_job_spec_witness :
    record_usage_for_job usage_demo_store "u1" "job1" none 1000 5 = .ok usage_demo_store
    ∧ record_usage_for_job usage_demo_store "u1" "job1" (some 0) 1000 5
        = .ok usage_demo_store :=
  ⟨(record_usage_for_job_spec usage_demo_store "u1" "job1" none 1000 5
      (default_entitlement "u1") rfl (by decide)).1 rfl,
   (record_usage_for_job_spec usage_demo_store "u1" "job1" (some 0) 1000 5
      (default_entitlement "u1") rfl (by decide)).2.1 0 rfl (by decide)⟩

end Fathom
